import Mathlib

/-!
Shallow embedding of the decision-making core of the `yasa` engine
(Rust sources under `src/`), together with theorems settling the claims
about its specification.

Conventions of the embedding:
* `i32` is embedded as `Int`, the unsigned integer types as `Nat`
  (with explicit checks where the source checks for overflow),
  `f64` as `ℚ` (every probability and heuristic constant in the
  embedded code is an exact rational, so `ℚ` models the intended
  real-number semantics; floating-point tolerances in the claims
  become exact equalities);
* `HashMap<String, Player>` is embedded as a list of players
  (iteration order fixed by the list; the source relies on no
  particular order for the properties proved here);
* a Rust function `fn f(&mut GameState, ..) -> Result<(), String>`
  is embedded as a function into `ExecR`, which carries the state as
  mutated so far in *both* the ok and the err case, exactly like a
  Rust `&mut` borrow does when the function returns early with `Err`;
* read-only accessors returning `Result<T, String>` are embedded as
  functions into `Except String T`.
-/

namespace Yasa

/- `Rat` arithmetic in core is marked `@[irreducible]`, which blocks
elaborator-side evaluation of the embedded probabilities at concrete
inputs (the kernel itself ignores reducibility attributes).  Reducibility
is restored here so that witnesses evaluate by `rfl` and `decide`. -/
set_option allowUnsafeReducibility true in
attribute [semireducible] Rat.mul Rat.add Rat.sub Rat.inv Rat.div Rat.neg Rat.blt

/-- Decidable equality for `Except`, used to evaluate the embedded
`Result`-returning functions at concrete inputs. -/
instance {ε α : Type} [DecidableEq ε] [DecidableEq α] :
    DecidableEq (Except ε α) := fun a b =>
  match a, b with
  | .ok x, .ok y =>
    if h : x = y then isTrue (by rw [h])
    else isFalse (fun hc => h (Except.ok.inj hc))
  | .error x, .error y =>
    if h : x = y then isTrue (by rw [h])
    else isFalse (fun hc => h (Except.error.inj hc))
  | .ok _, .error _ => isFalse (fun hc => Except.noConfusion hc)
  | .error _, .ok _ => isFalse (fun hc => Except.noConfusion hc)

/-- Arena width (`model/constants.rs`). -/
def ARENA_WIDTH : Int := 28

/-- Arena height (`model/constants.rs`). -/
def ARENA_HEIGHT : Int := 17

/-- Agility table indexed by agility value (`model/constants.rs`). -/
def AGILITY_TABLE : List Nat := [6, 6, 5, 4, 3, 2, 1]

/-- GFI target on a d6 in normal weather (`model/constants.rs`). -/
def GFI_TARGET_NORMAL : Nat := 2

/-- GFI target on a d6 in a blizzard (`model/constants.rs`). -/
def GFI_TARGET_BLIZZARD : Nat := 3

/-- Maximum GFI attempts per turn (`model/constants.rs`). -/
def MAX_GFI : Nat := 2

/-- A square of the pitch (`model/position.rs`). -/
structure Square where
  x : Int
  y : Int
deriving DecidableEq, Repr

/-- Chebyshev distance (`Square::distance`). -/
def Square.distance (a b : Square) : Nat :=
  max (a.x - b.x).natAbs (a.y - b.y).natAbs

/-- Manhattan distance (`Square::manhattan_distance`). -/
def Square.manhattan_distance (a b : Square) : Nat :=
  (a.x - b.x).natAbs + (a.y - b.y).natAbs

/-- Adjacency (`Square::is_adjacent`). -/
def Square.is_adjacent (a b : Square) : Bool :=
  a.distance b = 1

/-- `Square::is_out_of_bounds`. -/
def Square.is_out_of_bounds (p : Square) : Bool :=
  p.x ≤ 0 || p.x ≥ ARENA_WIDTH - 1 || p.y ≤ 0 || p.y ≥ ARENA_HEIGHT - 1

/-- The eight direction offsets used by `Square::get_adjacent_squares`,
in source order. -/
def Square.directions : List (Int × Int) :=
  [(-1, -1), (-1, 0), (-1, 1), (0, -1), (0, 1), (1, -1), (1, 0), (1, 1)]

/-- `Square::get_adjacent_squares`: the neighbours of `p` that lie inside
the arena array bounds `[0, ARENA_WIDTH) × [0, ARENA_HEIGHT)`. -/
def Square.get_adjacent_squares (p : Square) : List Square :=
  Square.directions.filterMap fun d =>
    let nx := p.x + d.1
    let ny := p.y + d.2
    if 0 ≤ nx ∧ nx < ARENA_WIDTH ∧ 0 ≤ ny ∧ ny < ARENA_HEIGHT then
      some ⟨nx, ny⟩
    else
      none

/-- Player roles (`model/enums.rs`). -/
inductive PlayerRole where
  | Blitzer | Catcher | Lineman | Thrower
deriving DecidableEq, Repr

/-- Skills (`model/enums.rs`). -/
inductive Skill where
  | Block | Catch | Dodge | Pass | SureHands
deriving DecidableEq, Repr

/-- Game procedures (`model/enums.rs`).  The `BlockRoll` variant is used by
`actions/execution/block.rs`, `mcts/tree.rs` and the spec (§4.3) but is
missing from the `model/enums.rs` snapshot under `src/`; it is included
here so that those uses can be embedded. -/
inductive Procedure where
  | Armor | BlitzAction | Block | BlockAction | BlockRoll | Bounce | Casualty | Catch
  | CoinTossFlip | CoinTossKickReceive | Dodge | Ejection | EndGame
  | EndPlayerTurn | EndTurn | FollowUp | Foul | FoulAction | GFI | Half
  | Handoff | HandoffAction | HighKick | Injury | Intercept | Interception
  | Kickoff | KickoffTable | KnockDown | KnockOut | Move | MoveAction
  | PassAction | PassAttempt | Pickup | PlaceBall | Push | Reroll | Setup
  | StandUp | StartGame | Touchback | Touchdown | Turn | Turnover
  | WeatherTable
deriving DecidableEq, Repr

/-- Action types (`model/enums.rs`). -/
inductive ActionType where
  | Block | Continue | DontUseApothecary | DontUseBribe | DontUseReroll
  | EndPlayerTurn | EndSetup | EndTurn | FollowUp | Foul | Handoff | Heads
  | Kick | Move | Pass | PlaceBall | PlacePlayer | Push | Receive
  | SelectAttackerDown | SelectBothDown | SelectDefenderDown
  | SelectDefenderStumbles | SelectFirstRoll | SelectNone | SelectPlayer
  | SelectPush | SelectSecondRoll | SetupFormationLine | SetupFormationSpread
  | SetupFormationWedge | SetupFormationZone | StandUp | StartBlitz
  | StartBlock | StartFoul | StartGame | StartHandoff | StartMove | StartPass
  | Tails | UseBribe | UseReroll
deriving DecidableEq, Repr

/-- Weather (`model/enums.rs`). -/
inductive WeatherType where
  | Blizzard | Nice | PouringRain | SwelteringHeat | VerySunny
deriving DecidableEq, Repr

/-- Per-player mutable state (`model/player.rs`). -/
structure PlayerState where
  up : Bool
  used : Bool
  moves : Nat
  stunned : Bool
  knocked_out : Bool
  squares_moved : List Square
  has_blocked : Bool
deriving DecidableEq, Repr

/-- `PlayerState::default`. -/
def PlayerState.default : PlayerState :=
  { up := true, used := false, moves := 0, stunned := false,
    knocked_out := false, squares_moved := [], has_blocked := false }

/-- A player (`model/player.rs`). -/
structure Player where
  player_id : String
  role : PlayerRole
  skills : List Skill
  ma : Nat
  st : Nat
  ag : Nat
  av : Nat
  state : PlayerState
  position : Option Square
deriving DecidableEq, Repr

/-- `Player::get_ma` (clamped to `[1, 10]`). -/
def Player.get_ma (p : Player) : Nat := min (max p.ma 1) 10

/-- `Player::get_ag` (clamped to `[1, 10]`). -/
def Player.get_ag (p : Player) : Nat := min (max p.ag 1) 10

/-- A ball (`model/ball.rs`). -/
structure Ball where
  position : Option Square
  is_carried : Bool
deriving DecidableEq, Repr

/-- A team (`model/team.rs`); `players_by_id` is embedded as a list. -/
structure Team where
  bribes : Nat
  players_by_id : List Player
  rerolls : Nat
  score : Nat
  team_id : String
deriving DecidableEq, Repr

/-- Modelled from the spec: the `Dugout` type is referenced by
`model/game.rs` (`use super::team::{Dugout, Team}`) but its definition is
not under `src/`; the spec only lists dugouts as opaque JSON payload
(§6), so it is embedded as a placeholder with no observable content. -/
structure Dugout where
deriving DecidableEq, Repr

/-- Per-turn flags (`model/game.rs`). -/
structure TurnState where
  blitz : Bool
  quick_snap : Bool
  blitz_available : Bool
  pass_available : Bool
  foul_available : Bool
  handoff_available : Bool
deriving DecidableEq, Repr

/-- `TurnState::default`. -/
def TurnState.default : TurnState :=
  { blitz := false, quick_snap := false, blitz_available := true,
    pass_available := true, foul_available := true, handoff_available := true }

/-- An element of a push chain (`model/block.rs`). -/
structure PushChainItem where
  attacker : String
  defender : String
  position : Option Square
deriving DecidableEq, Repr

/-- `PushChainItem::new`. -/
def PushChainItem.new (attacker defender : String) (position : Option Square) :
    PushChainItem :=
  { attacker, defender, position }

/-- Block context (`model/block.rs`). -/
structure BlockContext where
  attacker : String
  defender : String
  position : Square
  knock_out : Bool
  push_chain : List PushChainItem
deriving DecidableEq, Repr

/-- `BlockContext::new`. -/
def BlockContext.new (attacker defender : String) (position : Square) :
    BlockContext :=
  { attacker, defender, position, knock_out := false, push_chain := [] }

/-- A movement path (`pathfinding/path.rs`); `prob` is embedded as `ℚ`. -/
structure Path where
  squares : List Square
  target : Square
  prob : ℚ
  moves_used : Nat
  gfis_used : Nat
  picks_up_ball : Bool
deriving DecidableEq, Repr

/-- Modelled from the spec: `PathFollowState` (the `active_path` field) is
used by `actions/execution/movement.rs` and `actions/common.rs` but its
definition is not under `src/`.  Per §9 of the spec and the unit tests in
`actions/execution/movement.rs`, it holds the path being followed and a
`current_step` index that advances on each successful step; it is complete
when the index reaches the path length. -/
structure PathFollowState where
  path : Path
  current_step : Nat
deriving DecidableEq, Repr

/-- Modelled from the spec: `PathFollowState::new` starts at step 0. -/
def PathFollowState.new (path : Path) : PathFollowState :=
  { path, current_step := 0 }

/-- Modelled from the spec: the next square of an active path, if any. -/
def PathFollowState.next_square (ps : PathFollowState) : Option Square :=
  ps.path.squares.get? ps.current_step

/-- Modelled from the spec: advance the active path one step. -/
def PathFollowState.advance (ps : PathFollowState) : PathFollowState :=
  { ps with current_step := ps.current_step + 1 }

/-- Modelled from the spec: an active path is complete when the index
reaches the number of squares. -/
def PathFollowState.is_complete (ps : PathFollowState) : Bool :=
  ps.current_step ≥ ps.path.squares.length

/-- An action (`model/action.rs`).  Equality of the Rust type ignores the
attached path; the embedded theorems compare actions field-wise and the
executions only ever read `action_type`, `player`, `position` and `path`. -/
structure Action where
  action_type : ActionType
  player : Option String
  position : Option Square
  path : Option Path
deriving DecidableEq, Repr

/-- `Action::new` (no path attached). -/
def Action.new (action_type : ActionType) (player : Option String)
    (position : Option Square) : Action :=
  { action_type, player, position, path := none }

/-- `Action::new_with_path` (position taken from the path's target). -/
def Action.new_with_path (action_type : ActionType) (player : Option String)
    (path : Path) : Action :=
  { action_type, player, position := some path.target, path := some path }

/-- The full game state (`model/game.rs`, plus the `active_path` field used
by `actions/execution/movement.rs`). -/
structure GameState where
  half : Nat
  round : Nat
  game_over : Bool
  weather : WeatherType
  balls : List Ball
  home_team : Option Team
  home_dugout : Option Dugout
  away_team : Option Team
  away_dugout : Option Dugout
  kicking_first_half : Option String
  receiving_first_half : Option String
  kicking_this_drive : Option String
  receiving_this_drive : Option String
  coin_toss_winner : Option String
  turn_state : Option TurnState
  procedure : Option Procedure
  parent_procedure : Option Procedure
  current_team_id : Option String
  active_player_id : Option String
  rolls : List ActionType
  block_context : Option BlockContext
  position : Option Square
  available_actions : List Action
  active_path : Option PathFollowState
deriving DecidableEq, Repr

/-- `GameState::default`. -/
def GameState.default : GameState :=
  { half := 1, round := 0, game_over := false, weather := .Nice, balls := [],
    home_team := none, home_dugout := none, away_team := none,
    away_dugout := none, kicking_first_half := none,
    receiving_first_half := none, kicking_this_drive := none,
    receiving_this_drive := none, coin_toss_winner := none,
    turn_state := some TurnState.default, procedure := none,
    parent_procedure := none, current_team_id := none,
    active_player_id := none, rolls := [], block_context := none,
    position := none, available_actions := [], active_path := none }

/-- `GameState::get_current_team`. -/
def GameState.get_current_team (s : GameState) : Option Team :=
  match s.current_team_id with
  | none => none
  | some ctid =>
    match s.home_team with
    | some ht =>
      if ht.team_id = ctid then some ht
      else
        match s.away_team with
        | some at_ => if at_.team_id = ctid then some at_ else none
        | none => none
    | none =>
      match s.away_team with
      | some at_ => if at_.team_id = ctid then some at_ else none
      | none => none

/-- `GameState::is_ball_carried`. -/
def GameState.is_ball_carried (s : GameState) : Bool :=
  match s.balls with
  | ball :: _ => ball.is_carried
  | [] => false

/-- `GameState::is_home_team`. -/
def GameState.is_home_team (s : GameState) (team_id : String) : Bool :=
  match s.home_team with
  | some ht => ht.team_id = team_id
  | none => false

/-- `GameState::get_ball_position`. -/
def GameState.get_ball_position (s : GameState) : Except String Square :=
  match s.balls with
  | ball :: _ =>
    match ball.position with
    | some p => .ok p
    | none => .error "Missing ball on field"
  | [] => .error "Missing ball on field"

/-- Find the first player with the given id in a list. -/
def findPlayer (players : List Player) (player_id : String) : Option Player :=
  players.find? fun p => p.player_id = player_id

/-- `GameState::get_player` (home team scanned first, then away). -/
def GameState.get_player (s : GameState) (player_id : String) :
    Except String Player :=
  match (s.home_team.bind fun t => findPlayer t.players_by_id player_id) with
  | some p => .ok p
  | none =>
    match (s.away_team.bind fun t => findPlayer t.players_by_id player_id) with
    | some p => .ok p
    | none => .error ("No player with id " ++ player_id)

/-- `GameState::get_player_at` (home team scanned first, then away). -/
def GameState.get_player_at (s : GameState) (position : Square) :
    Except String Player :=
  let look : Option Team → Option Player := fun ot =>
    ot.bind fun t => t.players_by_id.find? fun p =>
      match p.position with
      | some q => q.x = position.x ∧ q.y = position.y
      | none => false
  match look s.home_team with
  | some p => .ok p
  | none =>
    match look s.away_team with
    | some p => .ok p
    | none => .error "No player at position"

/-- `GameState::get_active_player`. -/
def GameState.get_active_player (s : GameState) : Except String Player :=
  match s.active_player_id with
  | none => .error "Missing active player."
  | some pid => s.get_player pid

/-- `GameState::get_ball_carrier`. -/
def GameState.get_ball_carrier (s : GameState) : Except String Player :=
  match s.get_ball_position with
  | .error e => .error e
  | .ok bp => s.get_player_at bp

/-- `GameState::is_active_player_carrying_ball`. -/
def GameState.is_active_player_carrying_ball (s : GameState) : Bool :=
  if s.is_ball_carried then
    match s.get_active_player with
    | .ok player =>
      match s.balls with
      | ball :: _ => player.position = ball.position
      | [] => false
    | .error _ => false
  else false

/-- `GameState::get_players_on_pitch`. -/
def GameState.get_players_on_pitch (s : GameState) (team_id : String)
    (up_only : Bool) : List Player :=
  let team :=
    if (s.home_team.map fun t => t.team_id == team_id).getD false then
      s.home_team
    else
      s.away_team
  match team with
  | some t =>
    t.players_by_id.filter fun p => p.position.isSome && (!up_only || p.state.up)
  | none => []

/-- `GameState::get_player_team_id`. -/
def GameState.get_player_team_id (s : GameState) (player_id : String) :
    Except String String :=
  match s.home_team with
  | some ht =>
    if (findPlayer ht.players_by_id player_id).isSome then .ok ht.team_id
    else
      match s.away_team with
      | some at_ =>
        if (findPlayer at_.players_by_id player_id).isSome then .ok at_.team_id
        else .error ("No player with id " ++ player_id)
      | none => .error ("No player with id " ++ player_id)
  | none =>
    match s.away_team with
    | some at_ =>
      if (findPlayer at_.players_by_id player_id).isSome then .ok at_.team_id
      else .error ("No player with id " ++ player_id)
    | none => .error ("No player with id " ++ player_id)

/-- `GameState::get_team_tackle_zones_at`: the number of players of the
team opposing `team_id` that are adjacent to `position`, up and not
stunned. -/
def GameState.get_team_tackle_zones_at (s : GameState) (team_id : String)
    (position : Square) : Nat :=
  let opp_team := if s.is_home_team team_id then s.away_team else s.home_team
  match opp_team with
  | some t =>
    (t.players_by_id.filter fun opponent =>
      match opponent.position with
      | some opp_pos =>
        position.distance opp_pos = 1 && opponent.state.up &&
          !opponent.state.stunned
      | none => false).length
  | none => 0

/-- Result of an embedded `fn (&mut GameState, ..) -> Result<(), String>`:
both constructors carry the state as mutated so far (Rust keeps the
mutations made through the `&mut` borrow before an early `Err` return). -/
inductive ExecR where
  | ok (s : GameState)
  | err (msg : String) (s : GameState)
deriving DecidableEq, Repr

/-- Whether an `ExecR` is the ok case. -/
def ExecR.isOk : ExecR → Bool
  | .ok _ => true
  | .err _ _ => false

/-- The state carried by an `ExecR` (mutated-so-far state in the err case). -/
def ExecR.state : ExecR → GameState
  | .ok s => s
  | .err _ s => s

/-- Replace the first player with the given id in a list, if present. -/
def updateFirstPlayer (players : List Player) (player_id : String)
    (f : Player → Player) : Option (List Player) :=
  match players with
  | [] => none
  | p :: rest =>
    if p.player_id = player_id then some (f p :: rest)
    else (updateFirstPlayer rest player_id f).map (p :: ·)

/-- Embedding of a mutation through `GameState::get_player_mut`: update the
first player with the given id (home team scanned first, then away). -/
def GameState.update_player (s : GameState) (player_id : String)
    (f : Player → Player) : Except String GameState :=
  match s.home_team with
  | some ht =>
    match updateFirstPlayer ht.players_by_id player_id f with
    | some players => .ok { s with home_team := some { ht with players_by_id := players } }
    | none =>
      match s.away_team with
      | some at_ =>
        match updateFirstPlayer at_.players_by_id player_id f with
        | some players => .ok { s with away_team := some { at_ with players_by_id := players } }
        | none => .error ("No player with id " ++ player_id)
      | none => .error ("No player with id " ++ player_id)
  | none =>
    match s.away_team with
    | some at_ =>
      match updateFirstPlayer at_.players_by_id player_id f with
      | some players => .ok { s with away_team := some { at_ with players_by_id := players } }
      | none => .error ("No player with id " ++ player_id)
    | none => .error ("No player with id " ++ player_id)

/-- Embedding of a mutation through `GameState::get_active_player_mut`. -/
def GameState.update_active_player (s : GameState) (f : Player → Player) :
    Except String GameState :=
  match s.active_player_id with
  | none => .error "Missing active player."
  | some pid => s.update_player pid f

/-- Embedding of `game_state.balls[0].is_carried = true` style mutations:
update the first ball, if present. -/
def GameState.update_ball0 (s : GameState) (f : Ball → Ball) : GameState :=
  match s.balls with
  | ball :: rest => { s with balls := f ball :: rest }
  | [] => s

/-- Tail of `actions/common.rs::execute_player_movement`: restore the
parent procedure unless a touchdown is recorded. -/
def execute_player_movement_finish (s : GameState) : ExecR :=
  if s.procedure ≠ some Procedure.Touchdown then
    .ok { s with procedure := s.parent_procedure }
  else .ok s

/-- `actions/common.rs::execute_player_movement`. -/
def execute_player_movement (s0 : GameState) (position : Square) : ExecR :=
  if s0.parent_procedure = none then
    .err "execute_player_movement called without parent_procedure set!" s0
  else
    let was_carrying := s0.is_active_player_carrying_ball
    match s0.get_active_player with
    | .error e => .err e s0
    | .ok active_player =>
      let old_moves := active_player.state.moves
      let ma := active_player.get_ma
      if old_moves ≥ ma + 2 then
        .err "Movement called with invalid state: moves already at max" s0
      else if old_moves = 255 then
        .err "Move counter overflow" s0
      else
        match s0.update_active_player (fun p =>
            { p with state := { p.state with moves := p.state.moves + 1 },
                     position := some position }) with
        | .error e => .err e s0
        | .ok s1 =>
          let s2 :=
            match s1.active_path with
            | some ap => { s1 with active_path := some ap.advance }
            | none => s1
          let s3 :=
            match s2.get_ball_position with
            | .ok ball_position =>
              if ball_position = position then
                let s2b := s2.update_ball0 fun b => { b with is_carried := true }
                match s2b.active_path with
                | some ap =>
                  if ap.is_complete then { s2b with active_path := none }
                  else s2b
                | none => s2b
              else s2
            | .error _ => s2
          if was_carrying || s3.is_active_player_carrying_ball then
            let s4 := s3.update_ball0 fun b => { b with position := some position }
            match s4.current_team_id with
            | none => .err "Missing current team id" s4
            | some current_team_id =>
              let is_home := s4.is_home_team current_team_id
              let is_touchdown :=
                if is_home then position.x = 1 else position.x = ARENA_WIDTH - 1
              if is_touchdown then
                let s5 := { s4 with procedure := some Procedure.Touchdown }
                match (if is_home then s5.home_team else s5.away_team) with
                | none => .err "Missing team for touchdown" s5
                | some _ =>
                  let s6 :=
                    if is_home then
                      { s5 with home_team :=
                          s5.home_team.map fun t => { t with score := t.score + 1 } }
                    else
                      { s5 with away_team :=
                          s5.away_team.map fun t => { t with score := t.score + 1 } }
                  execute_player_movement_finish s6
              else execute_player_movement_finish s4
          else execute_player_movement_finish s3

/-- `actions/execution/movement.rs::move_execution`. -/
def move_execution (s : GameState) (action : Action) : ExecR :=
  let s0 :=
    if s.active_path = none then
      match action.path with
      | some path => { s with active_path := some (PathFollowState.new path) }
      | none => s
    else s
  let positionR : Except String Square :=
    match s0.active_path with
    | some path_state =>
      match path_state.next_square with
      | some sq => .ok sq
      | none => .error "Path is complete but move_execution called"
    | none =>
      match action.position with
      | some sq => .ok sq
      | none => .error "Position missing in Move action and no active path"
  match positionR with
  | .error e => .err e s0
  | .ok position =>
    match s0.current_team_id with
    | none => .err "Missing current team id" s0
    | some current_team_id =>
      match s0.get_active_player with
      | .error e => .err e s0
      | .ok active_player =>
        let moves := active_player.state.moves
        let ma := active_player.get_ma
        if moves = 255 then .err "Move counter overflow" s0
        else if moves + 1 > ma then
          .ok { s0 with parent_procedure := s0.procedure,
                        procedure := some Procedure.GFI,
                        position := some position }
        else
          match active_player.position with
          | none => .err "Active player missing position" s0
          | some player_pos =>
            if s0.get_team_tackle_zones_at current_team_id player_pos > 0 then
              .ok { s0 with procedure := some Procedure.Dodge,
                            position := some ⟨position.x, position.y⟩ }
            else execute_player_movement s0 position

/-- `actions/execution/movement.rs::stand_up_execution`. -/
def stand_up_execution (s : GameState) : ExecR :=
  match s.update_active_player (fun p =>
      { p with state := { p.state with up := true, moves := p.state.moves + 3 } }) with
  | .error e => .err e s
  | .ok s1 => .ok s1

/-- `actions/execution/turn.rs::start_move_execution`. -/
def start_move_execution (s : GameState) (action : Action) : ExecR :=
  match action.player with
  | none => .err "No player in start move action" s
  | some pid =>
    .ok { s with active_player_id := some pid,
                 procedure := some Procedure.MoveAction,
                 parent_procedure := some Procedure.MoveAction }

/-- `actions/execution/turn.rs::start_blitz_execution`. -/
def start_blitz_execution (s : GameState) (action : Action) : ExecR :=
  match action.player with
  | none => .err "No player in start blitz action" s
  | some pid =>
    let s1 := { s with active_player_id := some pid,
                       procedure := some Procedure.BlitzAction,
                       parent_procedure := some Procedure.BlitzAction }
    match s1.turn_state with
    | none => .err "No Turn state in START_BLITZ action" s1
    | some ts => .ok { s1 with turn_state := some { ts with blitz_available := false } }

/-- `actions/execution/turn.rs::start_pass_execution`. -/
def start_pass_execution (s : GameState) (action : Action) : ExecR :=
  match action.player with
  | none => .err "No player in start pass action" s
  | some pid =>
    let s1 := { s with active_player_id := some pid,
                       procedure := some Procedure.PassAction,
                       parent_procedure := some Procedure.PassAction }
    match s1.turn_state with
    | none => .err "No Turn state in START_BLITZ action" s1
    | some ts => .ok { s1 with turn_state := some { ts with pass_available := false } }

/-- `actions/execution/turn.rs::start_handoff_execution`. -/
def start_handoff_execution (s : GameState) (action : Action) : ExecR :=
  match action.player with
  | none => .err "No player in start handoff action" s
  | some pid =>
    let s1 := { s with active_player_id := some pid,
                       procedure := some Procedure.HandoffAction,
                       parent_procedure := some Procedure.HandoffAction }
    match s1.turn_state with
    | none => .err "No Turn state in START_BLITZ action" s1
    | some ts => .ok { s1 with turn_state := some { ts with handoff_available := false } }

/-- `actions/execution/turn.rs::start_foul_execution`. -/
def start_foul_execution (s : GameState) (action : Action) : ExecR :=
  match action.player with
  | none => .err "No player in start foul action" s
  | some pid =>
    let s1 := { s with active_player_id := some pid,
                       procedure := some Procedure.FoulAction,
                       parent_procedure := some Procedure.FoulAction }
    match s1.turn_state with
    | none => .err "No Turn state in START_BLITZ action" s1
    | some ts => .ok { s1 with turn_state := some { ts with foul_available := false } }

/-- `actions/execution/turn.rs::start_block_execution`. -/
def start_block_execution (s : GameState) (action : Action) : ExecR :=
  match action.player with
  | none => .err "No player in start block action" s
  | some pid =>
    .ok { s with active_player_id := some pid,
                 procedure := some Procedure.BlockAction,
                 parent_procedure := some Procedure.BlockAction }

/-- `actions/execution/turn.rs::end_turn_execution`. -/
def end_turn_execution (s : GameState) : ExecR :=
  .ok { s with active_player_id := none,
               procedure := some Procedure.EndTurn,
               parent_procedure := none }

/-- `actions/execution/turn.rs::end_player_turn_execution`. -/
def end_player_turn_execution (s : GameState) : ExecR :=
  match s.update_active_player (fun p =>
      { p with state := { p.state with used := true, moves := 0,
                                       squares_moved := [],
                                       has_blocked := false } }) with
  | .error e => .err e s
  | .ok s1 =>
    .ok { s1 with active_player_id := none,
                  procedure := some Procedure.Turn,
                  parent_procedure := none }

/-- `actions/execution/block.rs::block_execution`. -/
def block_execution (s : GameState) (action : Action) : ExecR :=
  let s1 := { s with procedure := some Procedure.BlockRoll }
  match action.position with
  | some position =>
    match s1.active_player_id with
    | none => .err "Missing active player in Block" s1
    | some attacker =>
      match s1.get_player_at position with
      | .error e => .err e s1
      | .ok defender =>
        let ctx := BlockContext.new attacker defender.player_id position
        .ok { s1 with block_context := some ctx }
  | none => .err "No position at block execution." s1

/-- `actions/execution/block.rs::select_attacker_down_execution`. -/
def select_attacker_down_execution (s : GameState) : ExecR :=
  let s1 := { s with procedure := some Procedure.Turnover }
  match s1.update_active_player (fun p =>
      { p with state := { p.state with knocked_out := true } }) with
  | .error e => .err e s1
  | .ok s2 => .ok s2

/-- `actions/execution/block.rs::select_both_down_execution`. -/
def select_both_down_execution (s : GameState) : ExecR :=
  match s.block_context with
  | none => .err "Missing block context in both down execution" s
  | some ctx =>
    let defender_id := ctx.defender
    let s1 := { s with procedure := some Procedure.Turnover }
    match s1.update_active_player (fun p =>
        { p with state := { p.state with knocked_out := true } }) with
    | .error e => .err e s1
    | .ok s2 =>
      match s2.update_player defender_id (fun p =>
          { p with state := { p.state with knocked_out := true } }) with
      | .error e => .err e s2
      | .ok s3 => .ok s3

/-- `actions/execution/block.rs::select_push_execution`. -/
def select_push_execution (s : GameState) : ExecR :=
  let s1 := { s with procedure := some Procedure.Push }
  match s1.block_context with
  | some ctx =>
    let chain := ctx.push_chain ++ [PushChainItem.new ctx.attacker ctx.defender none]
    let ctx2 := { ctx with knock_out := false, push_chain := chain }
    .ok { s1 with block_context := some ctx2 }
  | none => .err "Missing block context in push execution" s1

/-- `actions/execution/block.rs::select_defender_stumbles_execution`. -/
def select_defender_stumbles_execution (s : GameState) : ExecR :=
  let s1 := { s with procedure := some Procedure.Push }
  match s1.block_context with
  | some ctx =>
    let chain := ctx.push_chain ++ [PushChainItem.new ctx.attacker ctx.defender none]
    let ctx2 := { ctx with knock_out := true, push_chain := chain }
    .ok { s1 with block_context := some ctx2 }
  | none => .err "Missing block context in Stumbles execution" s1

/-- `actions/execution/block.rs::select_defender_down_execution`. -/
def select_defender_down_execution (s : GameState) : ExecR :=
  let s1 := { s with procedure := some Procedure.Push }
  match s1.block_context with
  | some ctx =>
    let chain := ctx.push_chain ++ [PushChainItem.new ctx.attacker ctx.defender none]
    let ctx2 := { ctx with knock_out := true, push_chain := chain }
    .ok { s1 with block_context := some ctx2 }
  | none => .err "Missing block context in Defender Down execution" s1

/-- Set the position of the last element of a push chain
(`last_mut` in `actions/execution/block.rs::update_latest_push_position`). -/
def setLastPushPosition : List PushChainItem → Square → Option (List PushChainItem)
  | [], _ => none
  | [item], pos => some [{ item with position := some pos }]
  | item :: next :: rest, pos =>
    (setLastPushPosition (next :: rest) pos).map (item :: ·)

/-- `actions/execution/block.rs::update_latest_push_position`. -/
def update_latest_push_position (s : GameState) (position : Square) : ExecR :=
  match s.block_context with
  | none => .err "Missing block context" s
  | some ctx =>
    match setLastPushPosition ctx.push_chain position with
    | none => .err "Missing last value" s
    | some chain =>
      .ok { s with block_context := some { ctx with push_chain := chain } }

/-- `actions/execution/block.rs::add_chained_push`. -/
def add_chained_push (s : GameState) (player_id : String) : ExecR :=
  match s.block_context with
  | none => .err "No Block context in add chained push" s
  | some ctx =>
    match ctx.push_chain.getLast? with
    | none => .err "Missing last element in add chained push" s
    | some latest =>
      let chain := ctx.push_chain ++ [PushChainItem.new latest.defender player_id none]
      .ok { s with block_context := some { ctx with push_chain := chain } }

/-- The `for (defender_id, pos) in push_items.iter().rev()` loop of
`actions/execution/block.rs::execute_push_chain` (items already reversed). -/
def push_chain_loop : GameState → List (String × Option Square) → ExecR
  | s, [] => .ok s
  | s, (defender_id, pos) :: rest =>
    let ball_moved :=
      match s.get_player defender_id with
      | .ok player =>
        match player.position with
        | some old_pos =>
          match s.get_ball_position with
          | .ok ball_pos => s.is_ball_carried && ball_pos = old_pos
          | .error _ => false
        | none => false
      | .error _ => false
    match s.update_player defender_id (fun p => { p with position := pos }) with
    | .error e => .err e s
    | .ok s1 =>
      let s2 :=
        if ball_moved then s1.update_ball0 fun b => { b with position := pos }
        else s1
      push_chain_loop s2 rest

/-- Touchdown detection of `actions/execution/block.rs::execute_push_chain`. -/
def push_chain_touchdown (s : GameState) : ExecR :=
  let td_infoR : Except String (Option Bool) :=
    match s.get_ball_carrier with
    | .ok carrier =>
      if !carrier.state.knocked_out && !carrier.state.stunned &&
          carrier.state.up then
        match carrier.position with
        | some carrier_pos =>
          match s.get_player_team_id carrier.player_id with
          | .error e => .error e
          | .ok team_id =>
            let is_home := s.is_home_team team_id
            let is_touchdown :=
              if is_home then carrier_pos.x = 1
              else carrier_pos.x = ARENA_WIDTH - 1
            .ok (if is_touchdown then some is_home else none)
        | none => .ok none
      else .ok none
    | .error _ => .ok none
  match td_infoR with
  | .error e => .err e s
  | .ok none => .ok s
  | .ok (some is_home) =>
    let s1 := { s with procedure := some Procedure.Touchdown }
    if is_home then
      match s1.home_team with
      | some t => .ok { s1 with home_team := some { t with score := t.score + 1 } }
      | none => .ok s1
    else
      match s1.away_team with
      | some t => .ok { s1 with away_team := some { t with score := t.score + 1 } }
      | none => .ok s1

/-- `actions/execution/block.rs::execute_push_chain`. -/
def execute_push_chain (s : GameState) : ExecR :=
  match s.block_context with
  | none => .err "Missing block context in push chain execution." s
  | some ctx =>
    let push_items := ctx.push_chain.map fun item => (item.defender, item.position)
    match push_chain_loop s push_items.reverse with
    | .err e s' => .err e s'
    | .ok s1 =>
      if ctx.knock_out then
        match s1.update_player ctx.defender (fun p =>
            { p with state := { p.state with knocked_out := true } }) with
        | .error e => .err e s1
        | .ok s2 => push_chain_touchdown s2
      else push_chain_touchdown s1

/-- `actions/execution/block.rs::push_execution`. -/
def push_execution (s : GameState) (action : Action) : ExecR :=
  match action.position with
  | none => .err "No position at push execution." s
  | some position =>
    match update_latest_push_position s position with
    | .err e s' => .err e s'
    | .ok s1 =>
      if position.is_out_of_bounds then
        .err "Position out of bounds in push execution." s1
      else
        match s1.get_player_at position with
        | .ok player => add_chained_push s1 player.player_id
        | .error _ =>
          match execute_push_chain s1 with
          | .err e s' => .err e s'
          | .ok s2 =>
            if s2.procedure ≠ some Procedure.Touchdown then
              .ok { s2 with procedure := some Procedure.FollowUp }
            else .ok s2

/-- `actions/execution/block.rs::follow_up_execution`. -/
def follow_up_execution (s : GameState) (action : Action) : ExecR :=
  match action.position with
  | none => .err "Missing position in follow up execution." s
  | some position =>
    let is_blitz := s.parent_procedure = some Procedure.BlitzAction
    match s.update_active_player (fun p =>
        { p with state := { p.state with has_blocked := true },
                 position := some position }) with
    | .error e => .err e s
    | .ok s1 =>
      if is_blitz then
        .ok { s1 with procedure := some Procedure.BlitzAction,
                      block_context := none }
      else
        match s1.update_active_player (fun p =>
            { p with state := { p.state with used := true } }) with
        | .error e => .err e s1
        | .ok s2 =>
          .ok { s2 with procedure := some Procedure.Turn,
                        block_context := none }

/-- A rollout outcome (`actions/rollout/model.rs`); probability as `ℚ`. -/
structure RolloutOutcome where
  probability : ℚ
  resulting_state : GameState
deriving DecidableEq, Repr

/-- `RolloutOutcome::new`. -/
def RolloutOutcome.new (probability : ℚ) (resulting_state : GameState) :
    RolloutOutcome :=
  { probability, resulting_state }

/-- `actions/rollout/mod.rs::gfi_rollout`. -/
def gfi_rollout (gs : GameState) : Except String (List RolloutOutcome) :=
  match gs.current_team_id with
  | none => .error "Missing current team id"
  | some current_team_id =>
    match gs.position with
    | none => .error "Missing position in GFI rollout"
    | some position =>
      let succR : Except String RolloutOutcome :=
        if gs.get_team_tackle_zones_at current_team_id position > 0 then
          let st := { gs with procedure := some Procedure.Dodge,
                              position := some position }
          .ok (RolloutOutcome.new (5/6) st)
        else
          match execute_player_movement gs position with
          | .err e _ => .error e
          | .ok st => .ok (RolloutOutcome.new (5/6) st)
      match succR with
      | .error e => .error e
      | .ok succ =>
        match gs.update_active_player (fun p =>
            { p with position := some position,
                     state := { p.state with up := false } }) with
        | .error e => .error e
        | .ok fs =>
          let fstate := { fs with procedure := some Procedure.Turnover,
                                  parent_procedure := none }
          .ok [succ, RolloutOutcome.new (1/6) fstate]

/-- `actions/rollout/mod.rs::dodge_rollout`. -/
def dodge_rollout (gs : GameState) : Except String (List RolloutOutcome) :=
  match gs.get_active_player with
  | .error e => .error e
  | .ok active_player =>
    let ag := active_player.get_ag
    let min_required : Int :=
      match ag with
      | 1 => 6
      | 2 => 5
      | 3 => 4
      | 4 => 3
      | 5 => 2
      | _ => 1
    match gs.current_team_id with
    | none => .error "Missing current team id"
    | some current_team_id =>
      match gs.position with
      | none => .error "Missing position"
      | some position =>
        let tz : Int := gs.get_team_tackle_zones_at current_team_id position
        let failures : Nat :=
          1 + ((List.range' 2 4).filter fun roll =>
                 (roll : Int) + 1 - tz < min_required).length
        let fail_prob : ℚ := (failures : ℚ) / 6
        match execute_player_movement gs position with
        | .err e _ => .error e
        | .ok st =>
          let succ := RolloutOutcome.new (1 - fail_prob) st
          match gs.update_active_player (fun p =>
              { p with position := some position,
                       state := { p.state with up := false } }) with
          | .error e => .error e
          | .ok fs =>
            let fstate := { fs with procedure := some Procedure.Turnover,
                                    parent_procedure := none }
            .ok [succ, RolloutOutcome.new fail_prob fstate]

/-- `actions/rollout/mod.rs::block_rollout` (one-die block). -/
def block_rollout (gs : GameState) : Except String (List RolloutOutcome) :=
  let mk : ℚ → ActionType → RolloutOutcome := fun p face =>
    RolloutOutcome.new p
      { gs with procedure := some Procedure.Block, rolls := [face] }
  .ok [mk (1/6) .SelectDefenderStumbles,
       mk (1/6) .SelectDefenderDown,
       mk (2/6) .SelectPush,
       mk (1/6) .SelectBothDown,
       mk (1/6) .SelectAttackerDown]

/-- `actions/core/registry.rs::ActionRegistry::execute_action`:
only the listed action types are dispatched; every other action type
falls to the error arm. -/
def execute_action (gs : GameState) (action : Action) : ExecR :=
  match action.action_type with
  | .StartMove => start_move_execution gs action
  | .StartBlock => start_block_execution gs action
  | .StartFoul => start_foul_execution gs action
  | .StartBlitz => start_blitz_execution gs action
  | .StartHandoff => start_handoff_execution gs action
  | .StartPass => start_pass_execution gs action
  | .EndPlayerTurn => end_player_turn_execution gs
  | .EndTurn => end_turn_execution gs
  | .Move => move_execution gs action
  | .StandUp => stand_up_execution gs
  | .Block => block_execution gs action
  | _ => .err "Unimplemented action execution in action registry" gs

/-- `actions/core/registry.rs::ActionRegistry::rollout_chance_outcomes`:
only the `GFI` procedure is dispatched; every other procedure (including
`Dodge` and `BlockRoll`) falls to the error arm. -/
def rollout_chance_outcomes (gs : GameState) :
    Except String (List RolloutOutcome) :=
  match gs.procedure with
  | some Procedure.GFI => gfi_rollout gs
  | _ => .error "Unimplemented procedure rollout."

/-- `mcts/tree.rs::MCTSTree::is_random_procedure`. -/
def is_random_procedure (procedure : Option Procedure) : Except String Bool :=
  match procedure with
  | some Procedure.BlockRoll => .ok true
  | some Procedure.GFI => .ok true
  | some Procedure.Dodge => .ok true
  | none => .error "Missing procedure in MCTS expansion"
  | _ => .ok false

/-- `mcts/evaluation/heuristic.rs::evaluate_carrier_endzone_distance`. -/
def evaluate_carrier_endzone_distance (carrier_position : Square)
    (target_x : Int) : ℚ :=
  let endzone_distance : ℚ := ((carrier_position.x - target_x).natAbs : ℚ)
  0.985 - 0.03 * endzone_distance

/-- `mcts/evaluation/heuristic.rs::evaluate_player_support`. -/
def evaluate_player_support (player_position carrier_position : Square)
    (max_field_distance : ℚ) : ℚ :=
  let distance_to_carrier : ℚ := (player_position.distance carrier_position : ℚ)
  if distance_to_carrier ≤ 5 then 0.1 * (1 - distance_to_carrier / 5)
  else 0.05 * (1 - distance_to_carrier / max_field_distance)

/-- The player loop of
`mcts/evaluation/heuristic.rs::evaluate_offensive_position`, accumulating
the carrier score and the support score. -/
def offensive_scores (carrier : Player) (carrier_position : Square)
    (target_x : Int) (max_field_distance : ℚ) :
    List Player → ℚ → ℚ → Except String (ℚ × ℚ)
  | [], carrier_score, support_score => .ok (carrier_score, support_score)
  | player :: rest, carrier_score, support_score =>
    match player.position with
    | none => .error "Evaluation: Player has no position"
    | some player_pos =>
      if player.player_id = carrier.player_id then
        offensive_scores carrier carrier_position target_x max_field_distance
          rest (evaluate_carrier_endzone_distance carrier_position target_x)
          support_score
      else
        offensive_scores carrier carrier_position target_x max_field_distance
          rest carrier_score
          (support_score +
            evaluate_player_support player_pos carrier_position
              max_field_distance)

/-- `mcts/evaluation/heuristic.rs::evaluate_offensive_position`. -/
def evaluate_offensive_position (current_team_players : List Player)
    (carrier : Player) (carrier_position : Square) (target_x : Int)
    (max_field_distance : ℚ) : Except String ℚ :=
  match offensive_scores carrier carrier_position target_x max_field_distance
      current_team_players 0 0 with
  | .error e => .error e
  | .ok (carrier_score, support_score) =>
    let avg_support : ℚ :=
      if current_team_players.length > 1 then
        (support_score / ((current_team_players.length - 1 : Nat) : ℚ)) * 0.01
      else 0
    .ok (carrier_score + avg_support)

/-- The player loop of
`mcts/evaluation/heuristic.rs::evaluate_defensive_position`. -/
def defensive_team_score (carrier_position : Square) (max_field_distance : ℚ) :
    List Player → ℚ → Except String ℚ
  | [], acc => .ok acc
  | player :: rest, acc =>
    match player.position with
    | none => .error "Evaluation: Player has no position"
    | some player_pos =>
      let d : ℚ := (player_pos.distance carrier_position : ℚ)
      defensive_team_score carrier_position max_field_distance rest
        (acc + 0.4 * (1 - d / max_field_distance))

/-- `mcts/evaluation/heuristic.rs::evaluate_defensive_position`. -/
def evaluate_defensive_position (current_team_players : List Player)
    (carrier_position : Square) (target_x : Int) (max_field_distance : ℚ) :
    Except String ℚ :=
  let our_endzone_x : Int := if target_x = 1 then ARENA_WIDTH - 1 else 1
  let enemy_distance : ℚ := ((carrier_position.x - our_endzone_x).natAbs : ℚ)
  let base_defensive_score := -(0.99 - 0.03 * enemy_distance)
  match defensive_team_score carrier_position max_field_distance
      current_team_players 0 with
  | .error e => .error e
  | .ok team_score =>
    let avg_defense := team_score / (current_team_players.length : ℚ)
    .ok (base_defensive_score + avg_defense * 0.1)

/-- The player loop of
`mcts/evaluation/heuristic.rs::evaluate_loose_ball_position`. -/
def loose_ball_team_score (ball_position : Square) (max_field_distance : ℚ) :
    List Player → ℚ → Except String ℚ
  | [], acc => .ok acc
  | player :: rest, acc =>
    match player.position with
    | none => .error "Evaluation: Player has no position"
    | some player_pos =>
      let d : ℚ := (player_pos.distance ball_position : ℚ)
      loose_ball_team_score ball_position max_field_distance rest
        (acc + 0.3 * (1 - d / max_field_distance))

/-- `mcts/evaluation/heuristic.rs::evaluate_loose_ball_position`. -/
def evaluate_loose_ball_position (current_team_players : List Player)
    (ball_position : Square) (max_field_distance : ℚ) : Except String ℚ :=
  match loose_ball_team_score ball_position max_field_distance
      current_team_players 0 with
  | .error e => .error e
  | .ok team_score => .ok (team_score / (current_team_players.length : ℚ))

/-- `mcts/evaluation/heuristic.rs::HeuristicValuePolicy::evaluate`. -/
def HeuristicValuePolicy.evaluate (state : GameState) : Except String ℚ :=
  if state.procedure = some Procedure.Touchdown then .ok 1
  else
    match state.get_ball_position with
    | .error e => .error e
    | .ok ball_position =>
      let ball_carrier := state.get_ball_carrier
      match state.get_current_team with
      | none => .error "Evaluation: No current team"
      | some current_team =>
        let is_home_team : Bool :=
          match state.home_team with
          | some t => t.team_id == current_team.team_id
          | none => false
        let target_x : Int := if is_home_team then 1 else ARENA_WIDTH - 1
        let current_team_players :=
          state.get_players_on_pitch current_team.team_id true
        if current_team_players = [] then
          .error "Evaluation: No players on pitch for current team"
        else
          let max_field_distance : ℚ := ((ARENA_WIDTH + 17 : Int) : ℚ)
          let total_scoreR : Except String ℚ :=
            match ball_carrier with
            | .ok carrier =>
              match carrier.position with
              | none => .error "Evaluation: Carrier has no position"
              | some carrier_position =>
                match state.get_player_team_id carrier.player_id with
                | .error e => .error e
                | .ok carrier_team_id =>
                  if carrier_team_id = current_team.team_id then
                    evaluate_offensive_position current_team_players carrier
                      carrier_position target_x max_field_distance
                  else
                    evaluate_defensive_position current_team_players
                      carrier_position target_x max_field_distance
            | .error _ =>
              evaluate_loose_ball_position current_team_players ball_position
                max_field_distance
          match total_scoreR with
          | .error e => .error e
          | .ok total_score => .ok (max (-1) (min 1 total_score))

/-- MCTS node kinds (`mcts/node.rs`). -/
inductive NodeType where
  | Decision | Chance
deriving DecidableEq, Repr

/-- An MCTS node (`mcts/node.rs`); the children map is embedded as an
association list and the `f64` scores as `ℚ`. -/
structure MCTSNode where
  state : GameState
  node_type : NodeType
  parent : Option Nat
  decision_children : List (Action × Nat)
  untried_actions : List Action
  chance_children : List Nat
  chance_probability : ℚ
  visits : Nat
  total_score : ℚ
  is_terminal : Bool
deriving DecidableEq, Repr

/-- The action-type skip set of `MCTSNode::new_decision_node`. -/
def MCTS_SKIP_ACTIONS : List ActionType :=
  [ActionType.StartBlitz, ActionType.StartPass, ActionType.StartHandoff,
   ActionType.StartFoul]

/-- `mcts/node.rs::MCTSNode::new_decision_node` (the Rust function returns
`Result` but never errs; embedded as the node itself). -/
def MCTSNode.new_decision_node (state : GameState) (parent : Option Nat)
    (probability : ℚ) : MCTSNode :=
  let untried := state.available_actions.filter fun action =>
    !(MCTS_SKIP_ACTIONS.contains action.action_type)
  { state, node_type := .Decision, parent, decision_children := [],
    untried_actions := untried, chance_children := [],
    chance_probability := probability, visits := 0, total_score := 0,
    is_terminal := untried.isEmpty || state.game_over ||
      state.procedure == some Procedure.EndTurn ||
      state.procedure == some Procedure.Touchdown ||
      state.procedure == some Procedure.Turnover }

/-- The direction-based inclusion rule of
`actions/discovery/block.rs::push_discovery`: a square behind the
defender is a push candidate when its Chebyshev distance from the
attacker is ≥ 2 for a straight (same row or column) push, or its
Manhattan distance from the attacker is ≥ 3 for a diagonal push. -/
def include_push_square (attacker_position defender_position square :
    Square) : Bool :=
  if attacker_position.x = defender_position.x ∨
      attacker_position.y = defender_position.y then
    decide (attacker_position.distance square ≥ 2)
  else
    decide (attacker_position.manhattan_distance square ≥ 3)

/-- The loop body of `push_discovery`'s single classification pass over
the defender's adjacent squares. -/
def push_classify_step (gs : GameState)
    (attacker_position defender_position : Square)
    (acc : List Square × List Square × List Square) (square : Square) :
    List Square × List Square × List Square :=
  if include_push_square attacker_position defender_position square then
    if square.is_out_of_bounds then
      (acc.1, acc.2.1 ++ [square], acc.2.2)
    else if (gs.get_player_at square).isOk then
      (acc.1, acc.2.1, acc.2.2 ++ [square])
    else
      (acc.1 ++ [square], acc.2.1, acc.2.2)
  else acc

/-- The single pass of `push_discovery` over the defender's adjacent
squares, accumulating `(squares_empty, squares_out, squares_occupied)`
in traversal order. -/
def push_discovery_classes (gs : GameState)
    (attacker_position defender_position : Square) :
    List Square × List Square × List Square :=
  (defender_position.get_adjacent_squares).foldl
    (push_classify_step gs attacker_position defender_position)
    ([], [], [])

/-- `actions/discovery/block.rs::push_discovery`. -/
def push_discovery (gs : GameState) : ExecR :=
  let gs0 := { gs with available_actions := [] }
  match gs0.block_context with
  | none => .err "Missing block context in Push discovery" gs0
  | some block_ctx =>
    match block_ctx.push_chain.getLast? with
    | none => .err "Missing last push chain item in push discovery" gs0
    | some latest =>
      match gs0.get_player latest.attacker with
      | .error e => .err e gs0
      | .ok attacker =>
        match attacker.position with
        | none => .err "No attacker position in push discovery" gs0
        | some attacker_position =>
          match gs0.get_player latest.defender with
          | .error e => .err e gs0
          | .ok defender =>
            match defender.position with
            | none => .err "No defender position in push discovery" gs0
            | some defender_position =>
              let classes :=
                push_discovery_classes gs0 attacker_position defender_position
              let squares_empty := classes.1
              let squares_out := classes.2.1
              let squares_occupied := classes.2.2
              let final_squares :=
                if squares_empty ≠ [] then squares_empty
                else if squares_out ≠ [] then squares_out
                else squares_occupied
              let acts := final_squares.map fun square =>
                Action.new ActionType.Push none (some square)
              .ok { gs0 with available_actions := acts }

/-- A node of the A* search (`pathfinding/node.rs`); scores as `ℚ`. -/
structure PathNode where
  position : Square
  parent : Option Nat
  g_score : ℚ
  h_score : ℚ
  f_score : ℚ
  moves_left : Nat
  gfis_left : Nat
  prob : ℚ
  picked_up_ball : Bool
deriving DecidableEq, Repr

/-- `PathNode::new`. -/
def PathNode.new (position : Square) (moves_left gfis_left : Nat) : PathNode :=
  { position, parent := none, g_score := 0, h_score := 0, f_score := 0,
    moves_left, gfis_left, prob := 1, picked_up_ball := false }

/-- `PathNode::from_parent` (`saturating_sub` is `Nat` subtraction). -/
def PathNode.from_parent (parent_index : Nat) (parent : PathNode)
    (position : Square) (move_prob : ℚ) (uses_gfi : Bool) : PathNode :=
  { position, parent := some parent_index,
    g_score := 0, h_score := 0, f_score := 0,
    moves_left := if uses_gfi then parent.moves_left else parent.moves_left - 1,
    gfis_left := if uses_gfi then parent.gfis_left - 1 else parent.gfis_left,
    prob := parent.prob * move_prob,
    picked_up_ball := parent.picked_up_ball }

/-- `PathNode::total_moves_left`. -/
def PathNode.total_moves_left (n : PathNode) : Nat := n.moves_left + n.gfis_left

/-- `PathNode::update_g_score` (also refreshes `f_score`). -/
def PathNode.update_g_score (n : PathNode) (steps : Nat) (risk_weight : ℚ) :
    PathNode :=
  let g := (steps : ℚ) + (1 - n.prob) * risk_weight
  { n with g_score := g, f_score := g + n.h_score }

/-- Risk weight for the A* cost (`pathfinding/astar.rs`). -/
def RISK_WEIGHT : ℚ := 10

/-- Minimum probability threshold of the pathfinder
(`pathfinding/astar.rs`). -/
def MIN_PROB_THRESHOLD : ℚ := 1 / 100

/-- The pathfinder context (`pathfinding/astar.rs::Pathfinder`); the
precomputed tackle-zone grid is embedded as the counting function
`Pathfinder.get_tackle_zones_at`. -/
structure Pathfinder where
  game_state : GameState
  player : Player
  current_position : Square
  ball_position : Option Square
  opponent_team_id : String
  is_blizzard : Bool
  is_quick_snap : Bool
deriving DecidableEq, Repr

/-- `Pathfinder::new`. -/
def Pathfinder.new (game_state : GameState) (player : Player) :
    Except String Pathfinder :=
  match player.position with
  | none => .error "Player must have a position for pathfinding"
  | some current_position =>
    match game_state.current_team_id with
    | none => .error "No current team id"
    | some current_team_id =>
      let opponent_team_idR : Except String String :=
        if game_state.is_home_team current_team_id then
          match game_state.away_team with
          | some t => .ok t.team_id
          | none => .error "No away team"
        else
          match game_state.home_team with
          | some t => .ok t.team_id
          | none => .error "No home team"
      match opponent_team_idR with
      | .error e => .error e
      | .ok opponent_team_id =>
        let ball_position :=
          match game_state.balls with
          | ball :: _ => if !ball.is_carried then ball.position else none
          | [] => none
        .ok { game_state, player, current_position, ball_position,
              opponent_team_id,
              is_blizzard := game_state.weather == WeatherType.Blizzard,
              is_quick_snap :=
                (game_state.turn_state.map (·.quick_snap)).getD false }

/-- The tackle-zone grid of
`pathfinding/astar.rs::precompute_tackle_zones`, read back through
`get_tackle_zones_at`: a square inside the arena array bounds is marked
once per up, unstunned player of the opposing team standing on an
adjacent square; squares outside the bounds read 0. -/
def Pathfinder.get_tackle_zones_at (pf : Pathfinder) (pos : Square) : Nat :=
  if 0 ≤ pos.x ∧ pos.x < ARENA_WIDTH ∧ 0 ≤ pos.y ∧ pos.y < ARENA_HEIGHT then
    let opp_team :=
      if pf.game_state.is_home_team pf.opponent_team_id then
        pf.game_state.home_team
      else
        pf.game_state.away_team
    match opp_team with
    | some t =>
      (t.players_by_id.filter fun opponent =>
        opponent.state.up && !opponent.state.stunned &&
        (match opponent.position with
         | some opp_pos => pos.distance opp_pos = 1
         | none => false)).length
    | none => 0
  else 0

/-- `Pathfinder::get_valid_neighbors`: the 8 neighbours strictly inside
the pitch border and unoccupied (loop order `dx` outer, `dy` inner, which
is the order of `Square.directions`). -/
def Pathfinder.get_valid_neighbors (pf : Pathfinder) (pos : Square) :
    List Square :=
  Square.directions.filterMap fun d =>
    let nx := pos.x + d.1
    let ny := pos.y + d.2
    if ¬(1 ≤ nx ∧ nx < ARENA_WIDTH - 1) ∨ ¬(1 ≤ ny ∧ ny < ARENA_HEIGHT - 1) then
      none
    else
      let neighbor : Square := ⟨nx, ny⟩
      if (pf.game_state.get_player_at neighbor).isOk then none
      else some neighbor

/-- `Pathfinder::calculate_dodge_probability`. -/
def Pathfinder.calculate_dodge_probability (pf : Pathfinder) (dest : Square) : ℚ :=
  let ag := min pf.player.get_ag 6
  let base_target : Int := (AGILITY_TABLE.getD ag 6 : Int)
  let modifier : Int := (pf.get_tackle_zones_at dest : Int)
  let target : Int := max 2 (min 6 (base_target + 1 + modifier))
  ((7 - target : Int) : ℚ) / 6

/-- `Pathfinder::calculate_move_probability`; returns
`(probability, uses_gfi)`. -/
def Pathfinder.calculate_move_probability (pf : Pathfinder)
    (from_node : PathNode) (dest : Square) : ℚ × Bool :=
  let uses_gfi : Bool := from_node.moves_left == 0
  let prob1 : ℚ :=
    if uses_gfi then
      let gfi_target :=
        if pf.is_blizzard then GFI_TARGET_BLIZZARD else GFI_TARGET_NORMAL
      ((7 - gfi_target : Nat) : ℚ) / 6
    else 1
  let prob2 :=
    if !pf.is_quick_snap ∧ pf.get_tackle_zones_at from_node.position > 0 then
      prob1 * pf.calculate_dodge_probability dest
    else prob1
  (prob2, uses_gfi)

/-- The reversed priority ordering of `pathfinding/node.rs`: a node has
higher priority when its `f_score` is lower, ties broken by higher
probability. -/
def PathNode.higher_priority (a b : PathNode) : Bool :=
  a.f_score < b.f_score || (a.f_score == b.f_score && b.prob < a.prob)

/-- Pop a maximal-priority element (`BinaryHeap::pop`); which element pops
among equal keys is unspecified in Rust and fixed here as the first. -/
def popMax : List PathNode → Option (PathNode × List PathNode)
  | [] => none
  | n :: rest =>
    match popMax rest with
    | none => some (n, [])
    | some (m, rest') =>
      if PathNode.higher_priority m n then some (m, n :: rest')
      else some (n, rest)

/-- State of the A* main loop (`find_all_paths` locals): the open set as a
list standing for the binary heap, the closed set, and the best-node map
as an association list. -/
structure SearchState where
  open_set : List PathNode
  closed_set : List PathNode
  best_nodes : List (Square × PathNode)
deriving DecidableEq, Repr

/-- Lookup in the best-node map. -/
def lookupBest (best : List (Square × PathNode)) (sq : Square) :
    Option PathNode :=
  (best.find? fun e => e.1 == sq).map (·.2)

/-- Insert (overwrite) in the best-node map. -/
def insertBest (best : List (Square × PathNode)) (sq : Square) (n : PathNode) :
    List (Square × PathNode) :=
  (sq, n) :: best.filter fun e => e.1 != sq

/-- The domination test of the A* loop: the best node known at a square
beats a candidate when its probability and its total remaining movement
are both at least as large. -/
def dominates (existing n : PathNode) : Bool :=
  decide (existing.prob ≥ n.prob) &&
    decide (existing.total_moves_left ≥ n.total_moves_left)

/-- The skip test of the A* loop: a node is dropped when the best-node
map already holds a dominating node at its square. -/
def astar_skip (best : List (Square × PathNode)) (n : PathNode) : Bool :=
  match lookupBest best n.position with
  | some existing => dominates existing n
  | none => false

/-- The candidate children generated when the A* loop expands `current`
at closed-set index `current_index` (`best` is the best-node map after
inserting `current`). -/
def astar_children (pf : Pathfinder) (current_index : Nat)
    (current : PathNode) (best : List (Square × PathNode)) :
    List PathNode :=
  (pf.get_valid_neighbors current.position).filterMap fun npos =>
    let mp := pf.calculate_move_probability current npos
    let move_prob := mp.1
    let uses_gfi := mp.2
    if move_prob < MIN_PROB_THRESHOLD then none
    else if uses_gfi && decide (current.gfis_left = 0) then none
    else
      let nb0 :=
        PathNode.from_parent current_index current npos move_prob uses_gfi
      let nb1 :=
        if some npos = pf.ball_position then
          { nb0 with picked_up_ball := true }
        else nb0
      let steps := (pf.player.get_ma - nb1.moves_left) +
        (MAX_GFI - nb1.gfis_left)
      let nb2 := nb1.update_g_score steps RISK_WEIGHT
      let nb3 := { nb2 with h_score := 0, f_score := nb2.g_score }
      if !astar_skip best nb3 && decide (nb3.prob ≥ MIN_PROB_THRESHOLD) then
        some nb3
      else none

/-- The main loop of `Pathfinder::find_all_paths`.  The Rust loop runs
until the heap is empty; the embedding carries explicit fuel, returning
the closed set accumulated so far when the fuel runs out (the claims
proved about the search are loop invariants, so they hold for every
fuel). -/
def Pathfinder.astar_loop (pf : Pathfinder) : Nat → SearchState → List PathNode
  | 0, st => st.closed_set
  | fuel + 1, st =>
    match popMax st.open_set with
    | none => st.closed_set
    | some (current, rest) =>
      if astar_skip st.best_nodes current then
        pf.astar_loop fuel { st with open_set := rest }
      else
        let closed2 := st.closed_set ++ [current]
        let best2 := insertBest st.best_nodes current.position current
        if current.total_moves_left = 0 then
          pf.astar_loop fuel
            { open_set := rest, closed_set := closed2, best_nodes := best2 }
        else
          let new_nodes := astar_children pf st.closed_set.length current best2
          pf.astar_loop fuel
            { open_set := rest ++ new_nodes, closed_set := closed2,
              best_nodes := best2 }

/-- The reconstruction loop of `Pathfinder::extract_paths`: follow parent
links collecting squares root-first, skipping the start square, and
or-ing the `picked_up_ball` flags.  The fuel bounds the walk; parent
indices of a well-formed closed set strictly decrease, so
`closed.length` steps suffice. -/
def reconstruct_chain (closed : List PathNode) (start_pos : Square) :
    Nat → Nat → List Square × Bool
  | 0, _ => ([], false)
  | fuel + 1, idx =>
    match closed.get? idx with
    | none => ([], false)
    | some n =>
      let tail := if n.position ≠ start_pos then [n.position] else []
      match n.parent with
      | some pidx =>
        let rc := reconstruct_chain closed start_pos fuel pidx
        (rc.1 ++ tail, rc.2 || n.picked_up_ball)
      | none => (tail, n.picked_up_ball)

/-- The comparator of `extract_paths`' sort: probability descending, then
remaining movement descending (`ma_plus` is `ma + MAX_GFI`).  The Rust
`sort_by` is a stable sort on this total comparator, embedded below as a
stable insertion sort. -/
def path_le (ma_plus : Nat) (a b : Path) : Bool :=
  b.prob < a.prob || (b.prob == a.prob &&
    (ma_plus - b.moves_used - b.gfis_used) ≤
      (ma_plus - a.moves_used - a.gfis_used))

/-- The `retain`-with-seen-set dedup of `extract_paths`: keep the first
path per target. -/
def dedup_by_target : List Path → List Square → List Path
  | [], _ => []
  | p :: ps, seen =>
    if seen.contains p.target then dedup_by_target ps seen
    else p :: dedup_by_target ps (p.target :: seen)

/-- `Pathfinder::extract_paths`. -/
def Pathfinder.extract_paths (pf : Pathfinder) (closed_set : List PathNode) :
    List Path :=
  let paths := (List.range closed_set.length).filterMap fun idx =>
    match closed_set.get? idx with
    | none => none
    | some node =>
      if node.position = pf.current_position then none
      else
        let rc := reconstruct_chain closed_set pf.current_position
          closed_set.length idx
        some { squares := rc.1, target := node.position, prob := node.prob,
               moves_used := pf.player.get_ma - node.moves_left,
               gfis_used := MAX_GFI - node.gfis_left,
               picks_up_ball := rc.2 }
  let sorted := paths.insertionSort
    fun a b => path_le (pf.player.get_ma + MAX_GFI) a b = true
  dedup_by_target sorted []

/-- The initial `moves_left` of `Pathfinder::find_all_paths` (1 under
quick snap). -/
def Pathfinder.initial_moves_left (pf : Pathfinder) : Nat :=
  if pf.is_quick_snap then 1
  else pf.player.get_ma - pf.player.state.moves

/-- The initial `gfis_left` of `Pathfinder::find_all_paths` (0 under quick
snap). -/
def Pathfinder.initial_gfis_left (pf : Pathfinder) : Nat :=
  if pf.is_quick_snap then 0
  else min ((pf.player.get_ma + MAX_GFI) - pf.player.state.moves) MAX_GFI

/-- `Pathfinder::find_all_paths` (fuel-indexed, see
`Pathfinder.astar_loop`). -/
def Pathfinder.find_all_paths (pf : Pathfinder) (fuel : Nat) : List Path :=
  let start := PathNode.new pf.current_position pf.initial_moves_left
    pf.initial_gfis_left
  let closed := pf.astar_loop fuel
    { open_set := [start], closed_set := [], best_nodes := [] }
  pf.extract_paths closed

/-! Concrete game states used as witness and counterexample inputs.
They mirror the fixtures of `tests/common/mod.rs` (a default-statted
player per side placed at chosen squares). -/

/-- A player with the default role/skills/stats of `tests/common/mod.rs`
fixtures, at a chosen position with chosen `ma` and `ag`. -/
def mkPlayer (pid : String) (pos : Option Square) (ma ag : Nat) : Player :=
  { player_id := pid, role := .Blitzer, skills := [.Block], ma, st := 3, ag,
    av := 8, state := PlayerState.default, position := pos }

/-- A team with the default counters of `Team::new`. -/
def mkTeam (tid : String) (players : List Player) : Team :=
  { bribes := 1, players_by_id := players, rerolls := 3, score := 0,
    team_id := tid }

/-- Spec scenario 3 (claim C2): home player at (15,5) with AG 3, lone
opposing standing player at (15,4), procedure `MoveAction`, parent
`MoveAction`. -/
def c2_state : GameState :=
  { GameState.default with
      home_team := some (mkTeam "home" [mkPlayer "hp" (some ⟨15, 5⟩) 4 3]),
      away_team := some (mkTeam "away" [mkPlayer "ap" (some ⟨15, 4⟩) 4 3]),
      current_team_id := some "home",
      active_player_id := some "hp",
      procedure := some .MoveAction,
      parent_procedure := some .MoveAction }

/-- The `Move → (16,6)` action of spec scenario 3. -/
def c2_move : Action := Action.new .Move none (some ⟨16, 6⟩)

/-- A game state in procedure `GFI` under blizzard weather, with the
context the procedure requires (active player, current team, position,
parent procedure). -/
def c3_state : GameState :=
  { GameState.default with
      weather := .Blizzard,
      home_team := some (mkTeam "home" [mkPlayer "hp" (some ⟨10, 6⟩) 4 3]),
      away_team := some (mkTeam "away" []),
      current_team_id := some "home",
      active_player_id := some "hp",
      procedure := some .GFI,
      parent_procedure := some .MoveAction,
      position := some ⟨10, 5⟩ }

/-- The same context in procedure `Dodge` under normal weather
(claim C1). -/
def c1_dodge_state : GameState :=
  { c3_state with weather := .Nice, procedure := some .Dodge }

/-- Spec scenario 4 (claim C4): home blocker at (8,6), away defender at
(7,7) with away teammates at (6,7), (6,8), (7,8), procedure `Turn`. -/
def c4_state : GameState :=
  { GameState.default with
      home_team := some (mkTeam "home" [mkPlayer "hp" (some ⟨8, 6⟩) 4 3]),
      away_team := some (mkTeam "away"
        [mkPlayer "ap1" (some ⟨7, 7⟩) 4 3, mkPlayer "ap2" (some ⟨6, 7⟩) 4 3,
         mkPlayer "ap3" (some ⟨6, 8⟩) 4 3, mkPlayer "ap4" (some ⟨7, 8⟩) 4 3]),
      current_team_id := some "home",
      procedure := some .Turn }

/-- Scenario 4 after `StartBlock` through the registry. -/
def c4_s1 : GameState :=
  (execute_action c4_state (Action.new .StartBlock (some "hp") none)).state

/-- Scenario 4 after `Block (7,7)` through the registry (procedure
`BlockRoll`, claim C1's second chance-procedure input). -/
def c4_s2 : GameState :=
  (execute_action c4_s1 (Action.new .Block none (some ⟨7, 7⟩))).state

/-- The `SelectDefenderDown` outcome of the block roll on `c4_s2`
(as the repository's own test `tests/chain_push_tests.rs` selects it). -/
def c4_roll_pick : GameState :=
  match block_rollout c4_s2 with
  | .ok outs =>
    match outs.find? (fun o =>
        o.resulting_state.rolls.contains ActionType.SelectDefenderDown) with
    | some o => o.resulting_state
    | none => c4_s2
  | .error _ => c4_s2

/-- Scenario 4 after `SelectDefenderDown` (direct call, bypassing the
registry dispatch). -/
def c4_s4 : GameState := (select_defender_down_execution c4_roll_pick).state

/-- Scenario 4 after `Push (6,7)` (direct call). -/
def c4_s5 : GameState :=
  (push_execution c4_s4 (Action.new .Push none (some ⟨6, 7⟩))).state

/-- Scenario 4 after `Push (5,7)` (direct call). -/
def c4_s6 : GameState :=
  (push_execution c4_s5 (Action.new .Push none (some ⟨5, 7⟩))).state

/-- Scenario 4 after `FollowUp (7,7)` (direct call). -/
def c4_s7 : GameState :=
  (follow_up_execution c4_s6 (Action.new .FollowUp none (some ⟨7, 7⟩))).state

/-- A state in procedure `Touchdown` where the home side has just scored
(home carrier on the home target endzone column x = 1) but the evaluating
perspective is the away side. -/
def c5_away_state : GameState :=
  { GameState.default with
      home_team := some (mkTeam "home" [mkPlayer "hp" (some ⟨1, 5⟩) 4 3]),
      away_team := some (mkTeam "away" [mkPlayer "ap" (some ⟨20, 5⟩) 4 3]),
      balls := [⟨some ⟨1, 5⟩, true⟩],
      current_team_id := some "away",
      procedure := some .Touchdown }

/-- The same touchdown state from the scoring (home) perspective. -/
def c5_home_state : GameState :=
  { c5_away_state with current_team_id := some "home" }

/-- A quick-snap state for the pathfinder witness: home mover at (5,5),
one away player at (5,4). -/
def c7_state : GameState :=
  { GameState.default with
      home_team := some (mkTeam "home" [mkPlayer "hp" (some ⟨5, 5⟩) 4 3]),
      away_team := some (mkTeam "away" [mkPlayer "ap" (some ⟨5, 4⟩) 4 3]),
      current_team_id := some "home",
      turn_state := some { TurnState.default with quick_snap := true } }

/-- The home mover of `c7_state`. -/
def c7_player : Player := mkPlayer "hp" (some ⟨5, 5⟩) 4 3

/-- The pathfinder context that `Pathfinder::new` builds on `c7_state`. -/
def c7_pf : Pathfinder :=
  { game_state := c7_state, player := c7_player,
    current_position := ⟨5, 5⟩, ball_position := none,
    opponent_team_id := "away", is_blizzard := false, is_quick_snap := true }

/-- `setLastPushPosition` with the `none` case defaulted (total form used
to state claim C10's conclusion without an existential). -/
def setLastPushPositionD (chain : List PushChainItem) (pos : Square) :
    List PushChainItem :=
  (setLastPushPosition chain pos).getD chain

/-- The state `push_execution` leaves behind when the push target is out
of bounds: the tail push-chain item's position is already overwritten. -/
def oob_push_mutated (s : GameState) (ctx : BlockContext) (pos : Square) :
    GameState :=
  let ctx2 := { ctx with push_chain := setLastPushPositionD ctx.push_chain pos }
  { s with block_context := some ctx2 }

/-- The block context of `c4_s4` (after `Block (7,7)` and
`SelectDefenderDown`). -/
def c10_ctx : BlockContext :=
  { attacker := "hp", defender := "ap1", position := ⟨7, 7⟩, knock_out := true,
    push_chain := [PushChainItem.new "hp" "ap1" none] }

/-- The outcome list of the GFI rollout on `c3_state` (defaulted to `[]`
on error; the rollout succeeds on this state). -/
def c3_outs : List RolloutOutcome :=
  match gfi_rollout c3_state with
  | .ok outs => outs
  | .error _ => []

/-- Spec side (C8): the eight squares adjacent to the defender. -/
def all_adjacent_squares (p : Square) : List Square :=
  Square.directions.map fun d => Square.mk (p.x + d.1) (p.y + d.2)

/-- Spec side (C8): the candidate push squares behind the defender. -/
def push_candidate_squares (attacker_position defender_position : Square) :
    List Square :=
  (all_adjacent_squares defender_position).filter
    (include_push_square attacker_position defender_position)

/-- Spec side (C8): the empty (in-bounds, unoccupied) candidates. -/
def push_empty_squares (gs : GameState)
    (attacker_position defender_position : Square) : List Square :=
  (push_candidate_squares attacker_position defender_position).filter
    fun sq => !sq.is_out_of_bounds && !(gs.get_player_at sq).isOk

/-- Spec side (C8): the out-of-bounds candidates. -/
def push_oob_squares (attacker_position defender_position : Square) :
    List Square :=
  (push_candidate_squares attacker_position defender_position).filter
    fun sq => sq.is_out_of_bounds

/-- Spec side (C8): the occupied (in-bounds) candidates. -/
def push_occupied_squares (gs : GameState)
    (attacker_position defender_position : Square) : List Square :=
  (push_candidate_squares attacker_position defender_position).filter
    fun sq => !sq.is_out_of_bounds && (gs.get_player_at sq).isOk

/-- Spec side (C8): the one class of candidates that the precedence
empty > out-of-bounds > occupied selects. -/
def push_offered_class (gs : GameState)
    (attacker_position defender_position : Square) : List Square :=
  if push_empty_squares gs attacker_position defender_position ≠ [] then
    push_empty_squares gs attacker_position defender_position
  else if push_oob_squares attacker_position defender_position ≠ [] then
    push_oob_squares attacker_position defender_position
  else
    push_occupied_squares gs attacker_position defender_position

/-- The block context held by `c4_s4` (scenario 4 at the Push discovery
step), the concrete input for C8's witness. -/
def c8_ctx : BlockContext :=
  { attacker := "hp", defender := "ap1", position := ⟨7, 7⟩,
    knock_out := true,
    push_chain := [PushChainItem.new "hp" "ap1" none] }

/-- Spec side (C7): the success factor of a GFI step (3+ normally, 4+ in
a blizzard). -/
def gfi_factor (pf : Pathfinder) : ℚ :=
  ((7 - (if pf.is_blizzard then GFI_TARGET_BLIZZARD else GFI_TARGET_NORMAL)
    : Nat) : ℚ) / 6

/-- Spec side (C7, amended): the success probability of a single step
from `prev` (with `moves_left` normal moves remaining) to `dest`: the GFI
factor when the step starts with no normal movement left, times the
dodge factor when the step leaves a square in an opposing tackle zone —
except under a quick snap, which ignores tackle zones. -/
def step_success_prob (pf : Pathfinder) (prev : Square) (moves_left : Nat)
    (dest : Square) : ℚ :=
  (if moves_left = 0 then gfi_factor pf else 1) *
    (if !pf.is_quick_snap ∧ pf.get_tackle_zones_at prev > 0 then
      pf.calculate_dodge_probability dest
    else 1)

/-- Spec side (C7, amended): the per-step success probabilities along a
chain of squares starting at `prev` with `moves_left` normal moves
remaining (each step consumes one normal move, or a GFI once none are
left). -/
def step_probs (pf : Pathfinder) : Square → Nat → List Square → List ℚ
  | _, _, [] => []
  | prev, moves_left, sq :: rest =>
    step_success_prob pf prev moves_left sq ::
      step_probs pf sq (moves_left - 1) rest

/-- Spec side (C7, as claimed): the per-step probability with the dodge
factor applied whenever the step leaves a square in an opposing tackle
zone, with no quick-snap exception. -/
def claimed_step_prob (pf : Pathfinder) (prev : Square) (moves_left : Nat)
    (dest : Square) : ℚ :=
  (if moves_left = 0 then gfi_factor pf else 1) *
    (if pf.get_tackle_zones_at prev > 0 then
      pf.calculate_dodge_probability dest
    else 1)

/-- Spec side (C7, as claimed): the per-step probabilities along a chain
of squares, using `claimed_step_prob`. -/
def claimed_step_probs (pf : Pathfinder) :
    Square → Nat → List Square → List ℚ
  | _, _, [] => []
  | prev, moves_left, sq :: rest =>
    claimed_step_prob pf prev moves_left sq ::
      claimed_step_probs pf sq (moves_left - 1) rest

/-- Spec side (C7): a square strictly inside the pitch border. -/
def inside_pitch_border (sq : Square) : Prop :=
  1 ≤ sq.x ∧ sq.x < ARENA_WIDTH - 1 ∧ 1 ≤ sq.y ∧ sq.y < ARENA_HEIGHT - 1

instance (sq : Square) : Decidable (inside_pitch_border sq) := by
  unfold inside_pitch_border; infer_instance

/-- C7 search invariant: a root node of the A* search. -/
def root_node (pf : Pathfinder) (n : PathNode) : Prop :=
  n.position = pf.current_position ∧ n.prob = 1 ∧
    n.moves_left = pf.initial_moves_left

/-- C7 search invariant: node `n` extends node `p` by one valid step. -/
def node_from (pf : Pathfinder) (p n : PathNode) : Prop :=
  n.position ∈ pf.get_valid_neighbors p.position ∧
  n.prob = p.prob * step_success_prob pf p.position p.moves_left n.position ∧
  n.moves_left = p.moves_left - 1

/-- C7 search invariant: a node is a root or extends the closed-set node
its parent link names, and that link stays below `bound`. -/
def node_wf (pf : Pathfinder) (closed : List PathNode) (bound : Nat)
    (n : PathNode) : Prop :=
  (n.parent = none → root_node pf n) ∧
  ∀ j, n.parent = some j → j < bound ∧
    ∀ p, closed.get? j = some p → node_from pf p n

/-- C7 invariant of the closed set: every entry is well formed with its
parent link strictly below its own index. -/
def closed_inv (pf : Pathfinder) (closed : List PathNode) : Prop :=
  ∀ i n, closed.get? i = some n → node_wf pf closed i n

/-- C7 invariant of the open set relative to the closed set. -/
def open_inv (pf : Pathfinder) (closed opens : List PathNode) : Prop :=
  ∀ n ∈ opens, node_wf pf closed closed.length n

/-- The first path `find_all_paths` returns on `c7_pf` (C7's witness
input): one quick-snap step to (4,4) with probability 1. -/
def c7_path0 : Path :=
  { squares := [⟨4, 4⟩], target := ⟨4, 4⟩, prob := 1, moves_used := 4,
    gfis_used := 2, picks_up_ball := false }

/-- The remaining paths `find_all_paths` returns on `c7_pf`. -/
def c7_paths_rest : List Path :=
  [⟨[⟨4, 5⟩], ⟨4, 5⟩, 1, 4, 2, false⟩,
   ⟨[⟨4, 6⟩], ⟨4, 6⟩, 1, 4, 2, false⟩,
   ⟨[⟨5, 6⟩], ⟨5, 6⟩, 1, 4, 2, false⟩,
   ⟨[⟨6, 4⟩], ⟨6, 4⟩, 1, 4, 2, false⟩,
   ⟨[⟨6, 5⟩], ⟨6, 5⟩, 1, 4, 2, false⟩,
   ⟨[⟨6, 6⟩], ⟨6, 6⟩, 1, 4, 2, false⟩]

/-! Claim theorems. -/

/-- C6: for every game state from which an MCTS decision node is created,
the node's untried action list equals `available_actions` with every
action whose type is `StartBlitz`, `StartPass`, `StartHandoff` or
`StartFoul` removed, and the node is marked terminal iff that pruned list
is empty, or `game_over` holds, or the procedure is `EndTurn`,
`Touchdown` or `Turnover`. -/
theorem new_decision_node_pruning_and_terminal (state : GameState)
    (parent : Option Nat) (probability : ℚ) :
    (MCTSNode.new_decision_node state parent probability).untried_actions =
      state.available_actions.filter (fun a =>
        decide (a.action_type ∉ [ActionType.StartBlitz, ActionType.StartPass,
          ActionType.StartHandoff, ActionType.StartFoul])) ∧
    ((MCTSNode.new_decision_node state parent probability).is_terminal = true ↔
      ((MCTSNode.new_decision_node state parent probability).untried_actions = [] ∨
        state.game_over = true ∨
        state.procedure = some Procedure.EndTurn ∨
        state.procedure = some Procedure.Touchdown ∨
        state.procedure = some Procedure.Turnover)) := by
  constructor
  · unfold MCTSNode.new_decision_node MCTS_SKIP_ACTIONS
    apply List.filter_congr
    intro a _
    simp
  · unfold MCTSNode.new_decision_node MCTS_SKIP_ACTIONS
    simp [List.isEmpty_iff]
    tauto

/-- C9 counterexample: the adjacent-squares query on the on-pitch square
(1,1) returns the border square (0,0), whose x-coordinate is ≤ 0 — so the
query does not exclude border squares. -/
theorem get_adjacent_squares_border_cex :
    (Square.is_out_of_bounds ⟨1, 1⟩ = false) ∧
    ((⟨0, 0⟩ : Square) ∈ Square.get_adjacent_squares ⟨1, 1⟩) ∧
    ((⟨0, 0⟩ : Square).x ≤ 0) := by
  refine ⟨rfl, ?_, by decide⟩
  decide

/-- C9 (amended): `get_adjacent_squares` takes no out-of-bounds flag; it
yields exactly the neighbours of `p` (Chebyshev distance 1) that lie
inside the arena array bounds `0 ≤ x < 28`, `0 ≤ y < 17`, border squares
included. -/
theorem get_adjacent_squares_mem_iff (p q : Square) :
    q ∈ p.get_adjacent_squares ↔
      (p.distance q = 1 ∧ 0 ≤ q.x ∧ q.x < ARENA_WIDTH ∧ 0 ≤ q.y ∧
        q.y < ARENA_HEIGHT) := by
  obtain ⟨px, py⟩ := p
  obtain ⟨qx, qy⟩ := q
  unfold Square.get_adjacent_squares Square.directions Square.distance
  simp only [List.mem_filterMap, List.mem_cons, List.not_mem_nil, or_false,
    ARENA_WIDTH, ARENA_HEIGHT]
  constructor
  · rintro ⟨d, hd, h⟩
    split at h
    · rename_i hb
      simp only [Option.some.injEq, Square.mk.injEq] at h
      obtain ⟨hx, hy⟩ := h
      rcases hd with rfl | rfl | rfl | rfl | rfl | rfl | rfl | rfl <;>
        simp_all <;> omega
    · simp at h
  · rintro ⟨hdist, hx0, hxW, hy0, hyH⟩
    have hx : (px - qx).natAbs ≤ 1 := hdist ▸ Nat.le_max_left _ _
    have hy : (py - qy).natAbs ≤ 1 := hdist ▸ Nat.le_max_right _ _
    have hne : ¬(px = qx ∧ py = qy) := by
      rintro ⟨rfl, rfl⟩
      simp at hdist
    refine ⟨(qx - px, qy - py), ?_, ?_⟩
    · have h1 : qx - px = -1 ∨ qx - px = 0 ∨ qx - px = 1 := by omega
      have h2 : qy - py = -1 ∨ qy - py = 0 ∨ qy - py = 1 := by omega
      rcases h1 with h1 | h1 | h1 <;> rcases h2 with h2 | h2 | h2 <;>
        simp_all <;> omega
    · rw [if_pos]
      · simp only [Option.some.injEq, Square.mk.injEq]
        exact ⟨by ring, by ring⟩
      · refine ⟨by omega, by omega, by omega, by omega⟩

/-- C5 (amended): the heuristic `evaluate` returns exactly +1 for every
state in procedure `Touchdown`, regardless of which side the evaluating
perspective (current team) is. -/
theorem evaluate_touchdown_plus_one (s : GameState)
    (h : s.procedure = some Procedure.Touchdown) :
    HeuristicValuePolicy.evaluate s = .ok 1 := by
  unfold HeuristicValuePolicy.evaluate
  rw [if_pos h]

/-- Witness for C5's theorem at a concrete touchdown state. -/
theorem evaluate_touchdown_plus_one_witness :
    c5_home_state.procedure = some Procedure.Touchdown ∧
    HeuristicValuePolicy.evaluate c5_home_state = .ok 1 :=
  ⟨rfl, evaluate_touchdown_plus_one c5_home_state rfl⟩

/-- C5 counterexample: a touchdown state scored by the home side (home
carrier on the home endzone column x = 1) evaluates to +1 also from the
away perspective, so `evaluate` does return +1 for the opposing side. -/
theorem evaluate_touchdown_perspective_cex :
    c5_away_state.procedure = some Procedure.Touchdown ∧
    c5_away_state.current_team_id = some "away" ∧
    c5_away_state.get_ball_carrier = .ok (mkPlayer "hp" (some ⟨1, 5⟩) 4 3) ∧
    c5_away_state.get_player_team_id "hp" = .ok "home" ∧
    HeuristicValuePolicy.evaluate c5_away_state = .ok 1 :=
  ⟨rfl, rfl, rfl, rfl, rfl⟩

/-- C2 counterexample: in spec scenario 3 (home mover at (15,5), AG 3,
opponent at (15,4)), executing `Move → (16,6)` does enter the `Dodge`
chance procedure, but its rollout outcomes are 4/6 success and 2/6
failure — not 3/6 each as claimed (the destination (16,6) is in no
opposing tackle zone, and the code applies a +1 dodge modifier). -/
theorem dodge_scenario_probabilities_cex :
    (execute_action c2_state c2_move).isOk = true ∧
    (execute_action c2_state c2_move).state.procedure = some Procedure.Dodge ∧
    ((dodge_rollout (execute_action c2_state c2_move).state).map
        fun outs => outs.map RolloutOutcome.probability) = .ok [4/6, 2/6] ∧
    ((dodge_rollout (execute_action c2_state c2_move).state).map
        fun outs => outs.map RolloutOutcome.probability) ≠ .ok [3/6, 3/6] := by
  exact ⟨rfl, rfl, by decide, by decide⟩

/-- C2 (amended): in spec scenario 3, executing `Move → (16,6)` puts the
state into a `Dodge` chance procedure with `position = (16,6)`, and the
dodge rollout yields exactly two outcomes: success with probability 4/6
(restoring the parent `MoveAction`) and failure with probability 2/6
(entering `Turnover`). -/
theorem dodge_scenario_probabilities :
    (execute_action c2_state c2_move).isOk = true ∧
    (execute_action c2_state c2_move).state.procedure = some Procedure.Dodge ∧
    (execute_action c2_state c2_move).state.position = some ⟨16, 6⟩ ∧
    ((dodge_rollout (execute_action c2_state c2_move).state).map
        fun outs => outs.map RolloutOutcome.probability) = .ok [4/6, 2/6] ∧
    ((dodge_rollout (execute_action c2_state c2_move).state).map
        fun outs => outs.map fun o => o.resulting_state.procedure) =
      .ok [some Procedure.MoveAction, some Procedure.Turnover] := by
  exact ⟨rfl, rfl, rfl, by decide, by decide⟩

/-- C1: the registry's `rollout_chance_outcomes` dispatches only `GFI`;
on states in procedure `Dodge` or `BlockRoll` (with the required context
present) it returns an error, even though `dodge_rollout` and
`block_rollout` themselves succeed on those states. -/
theorem rollout_chance_outcomes_errors_on_dodge_and_blockroll :
    c1_dodge_state.procedure = some Procedure.Dodge ∧
    rollout_chance_outcomes c1_dodge_state =
      .error "Unimplemented procedure rollout." ∧
    (dodge_rollout c1_dodge_state).isOk = true ∧
    c4_s2.procedure = some Procedure.BlockRoll ∧
    rollout_chance_outcomes c4_s2 = .error "Unimplemented procedure rollout." ∧
    ((block_rollout c4_s2).map List.length) = .ok 5 :=
  ⟨rfl, rfl, rfl, rfl, rfl, rfl⟩

/-- C4: executing spec scenario 4's chain-push sequence through the
registry is impossible: `StartBlock` and `Block (7,7)` succeed (reaching
procedure `BlockRoll`), but the registry then errors on the `BlockRoll`
rollout and on the `SelectDefenderDown` and `Push` actions, which have no
dispatch arm in `execute_action`.  Calling the execution and rollout
functions of `actions/execution/block.rs` and `actions/rollout/mod.rs`
directly (as the claim and `tests/chain_push_tests.rs` intend), the
sequence completes exactly as claimed: home blocker at (7,7) with
`has_blocked = true` and `up = true`, first away defender at (6,7) and
knocked out, second away player at (5,7), procedure back at `Turn`. -/
theorem chain_push_registry_gap :
    (execute_action c4_state (Action.new .StartBlock (some "hp") none)).isOk = true ∧
    (execute_action c4_s1 (Action.new .Block none (some ⟨7, 7⟩))).isOk = true ∧
    c4_s2.procedure = some Procedure.BlockRoll ∧
    (rollout_chance_outcomes c4_s2).isOk = false ∧
    execute_action c4_s2 (Action.new .SelectDefenderDown none none) =
      .err "Unimplemented action execution in action registry" c4_s2 ∧
    (execute_action c4_s4 (Action.new .Push none (some ⟨6, 7⟩))).isOk = false ∧
    c4_roll_pick.rolls = [ActionType.SelectDefenderDown] ∧
    (select_defender_down_execution c4_roll_pick).isOk = true ∧
    (push_execution c4_s4 (Action.new .Push none (some ⟨6, 7⟩))).isOk = true ∧
    (push_execution c4_s5 (Action.new .Push none (some ⟨5, 7⟩))).isOk = true ∧
    (follow_up_execution c4_s6 (Action.new .FollowUp none (some ⟨7, 7⟩))).isOk = true ∧
    c4_s7.procedure = some Procedure.Turn ∧
    (c4_s7.get_player "hp").map (fun p => (p.position, p.state.has_blocked, p.state.up)) =
      .ok (some ⟨7, 7⟩, true, true) ∧
    (c4_s7.get_player "ap1").map (fun p => (p.position, p.state.knocked_out)) =
      .ok (some ⟨6, 7⟩, true) ∧
    (c4_s7.get_player "ap2").map (fun p => p.position) = .ok (some ⟨5, 7⟩) :=
  ⟨rfl, rfl, rfl, rfl, rfl, rfl, rfl, rfl, rfl, rfl, rfl, rfl, rfl, rfl, rfl⟩

/-- Setting the position of the last push-chain item succeeds on a
non-empty chain and rewrites exactly the last item's position. -/
theorem setLastPushPosition_spec (chain : List PushChainItem) (pos : Square)
    (h : chain ≠ []) :
    setLastPushPosition chain pos = some (setLastPushPositionD chain pos) ∧
    (setLastPushPositionD chain pos).getLast? = chain.getLast?.map
      (fun item => { item with position := some pos }) := by
  induction chain with
  | nil => exact absurd rfl h
  | cons a l ih =>
    cases l with
    | nil => exact ⟨rfl, rfl⟩
    | cons b m =>
      obtain ⟨hset, hlast⟩ := ih (by simp)
      have hD : setLastPushPositionD (a :: b :: m) pos =
          a :: setLastPushPositionD (b :: m) pos := by
        unfold setLastPushPositionD
        rw [setLastPushPosition, hset]
        rfl
      constructor
      · rw [setLastPushPosition, hset, hD]
        rfl
      · rw [hD]
        have hbm : (b :: m).getLast?.isSome := List.getLast?_isSome.mpr (by simp)
        have hne : setLastPushPositionD (b :: m) pos ≠ [] := by
          intro h0
          rw [h0] at hlast
          obtain ⟨y, hy⟩ := Option.isSome_iff_exists.mp hbm
          rw [hy] at hlast
          simp at hlast
        obtain ⟨x, xs, hxs⟩ := List.exists_cons_of_ne_nil hne
        rw [hxs]
        rw [hxs] at hlast
        rw [List.getLast?_cons_cons, hlast]
        simp

/-- C10: on a state in procedure `Push` with a non-empty push chain,
calling `push_execution` with an out-of-bounds target position returns an
error, but the state is not left unchanged: the tail push-chain item's
position has already been overwritten with the out-of-bounds target when
the error is returned. -/
theorem push_execution_oob_mutates_before_error (s : GameState) (a : Action)
    (pos : Square) (ctx : BlockContext)
    (hpos : a.position = some pos)
    (hoob : pos.is_out_of_bounds = true)
    (hctx : s.block_context = some ctx)
    (hchain : ctx.push_chain ≠ []) :
    push_execution s a = .err "Position out of bounds in push execution."
      (oob_push_mutated s ctx pos) ∧
    (setLastPushPositionD ctx.push_chain pos).getLast?.map PushChainItem.position =
      some (some pos) ∧
    (ctx.push_chain.getLast?.map PushChainItem.position ≠ some (some pos) →
      oob_push_mutated s ctx pos ≠ s) := by
  obtain ⟨hset, hlast⟩ := setLastPushPosition_spec ctx.push_chain pos hchain
  obtain ⟨last, hlastsome⟩ : ∃ x, ctx.push_chain.getLast? = some x := by
    cases h0 : ctx.push_chain.getLast? with
    | none => exact absurd (List.getLast?_eq_none_iff.mp h0) hchain
    | some x => exact ⟨x, rfl⟩
  refine ⟨?_, ?_, ?_⟩
  · simp [push_execution, update_latest_push_position, oob_push_mutated, hpos,
      hctx, hset, hoob]
  · rw [hlast, hlastsome]
    rfl
  · intro hne2 heq
    have h1 := congrArg GameState.block_context heq
    rw [hctx] at h1
    have hbc : ({ ctx with push_chain := setLastPushPositionD ctx.push_chain pos } :
        BlockContext) = ctx := Option.some.inj h1
    have Hchain : setLastPushPositionD ctx.push_chain pos = ctx.push_chain :=
      congrArg BlockContext.push_chain hbc
    rw [Hchain, hlastsome] at hlast
    simp only [Option.map_some'] at hlast
    have h3 := congrArg PushChainItem.position (Option.some.inj hlast)
    apply hne2
    rw [hlastsome]
    simp only [Option.map_some']
    exact congrArg some h3

/-- Witness for C10's theorem: the scenario-4 push state with the
out-of-bounds target (0,3). -/
theorem push_execution_oob_mutates_before_error_witness :
    ((Action.new .Push none (some ⟨0, 3⟩)).position = some (⟨0, 3⟩ : Square)) ∧
    ((⟨0, 3⟩ : Square).is_out_of_bounds = true) ∧
    (c4_s4.block_context = some c10_ctx) ∧
    (c10_ctx.push_chain ≠ []) ∧
    (push_execution c4_s4 (Action.new .Push none (some ⟨0, 3⟩)) =
        .err "Position out of bounds in push execution."
        (oob_push_mutated c4_s4 c10_ctx ⟨0, 3⟩) ∧
      (setLastPushPositionD c10_ctx.push_chain ⟨0, 3⟩).getLast?.map
          PushChainItem.position = some (some ⟨0, 3⟩) ∧
      (c10_ctx.push_chain.getLast?.map PushChainItem.position ≠
          some (some ⟨0, 3⟩) →
        oob_push_mutated c4_s4 c10_ctx ⟨0, 3⟩ ≠ c4_s4)) :=
  ⟨rfl, rfl, rfl, by decide,
    push_execution_oob_mutates_before_error c4_s4
      (Action.new .Push none (some ⟨0, 3⟩)) ⟨0, 3⟩ c10_ctx rfl rfl rfl
      (by decide)⟩

/-- Replacing the first player with a given id fails exactly when no
player with that id is in the list. -/
theorem updateFirstPlayer_eq_none (players : List Player) (pid : String)
    (f : Player → Player) :
    updateFirstPlayer players pid f = none ↔ findPlayer players pid = none := by
  induction players with
  | nil => simp [updateFirstPlayer, findPlayer]
  | cons p rest ih =>
    by_cases hp : p.player_id = pid
    · simp [updateFirstPlayer, findPlayer, hp]
    · simp [updateFirstPlayer, findPlayer, hp, ih]

/-- A successful first-player replacement with an id-preserving function
rewrites exactly the player that lookup finds. -/
theorem updateFirstPlayer_find (players : List Player) (pid : String)
    (f : Player → Player) (hf : ∀ p, (f p).player_id = p.player_id)
    (res : List Player) (h : updateFirstPlayer players pid f = some res) :
    ∃ p, findPlayer players pid = some p ∧ findPlayer res pid = some (f p) := by
  induction players generalizing res with
  | nil => simp [updateFirstPlayer] at h
  | cons q rest ih =>
    by_cases hq : q.player_id = pid
    · simp only [updateFirstPlayer, if_pos hq, Option.some.injEq] at h
      subst h
      exact ⟨q, by simp [findPlayer, hq], by simp [findPlayer, hf q, hq]⟩
    · simp only [updateFirstPlayer, if_neg hq] at h
      obtain ⟨res2, hres2, rfl⟩ := Option.map_eq_some'.mp h
      obtain ⟨p, h1, h2⟩ := ih res2 hres2
      refine ⟨p, ?_, ?_⟩
      · simpa [findPlayer, hq] using h1
      · simpa [findPlayer, hq] using h2

/-- A successful `update_player` with an id-preserving function leaves
`active_player_id` unchanged and rewrites exactly the player that
`get_player` finds. -/
theorem update_player_get (s : GameState) (pid : String) (f : Player → Player)
    (hf : ∀ p, (f p).player_id = p.player_id) (s2 : GameState)
    (h : s.update_player pid f = .ok s2) :
    s2.active_player_id = s.active_player_id ∧
    ∃ p, s.get_player pid = .ok p ∧ s2.get_player pid = .ok (f p) := by
  unfold GameState.update_player at h
  cases hht : s.home_team with
  | some ht =>
    simp only [hht] at h
    cases hupd : updateFirstPlayer ht.players_by_id pid f with
    | some players2 =>
      simp only [hupd] at h
      obtain rfl := (Except.ok.inj h).symm
      obtain ⟨p, h1, h2⟩ := updateFirstPlayer_find _ _ _ hf _ hupd
      refine ⟨rfl, p, ?_, ?_⟩
      · simp only [GameState.get_player, hht]
        simp [h1]
      · simp only [GameState.get_player]
        simp [h2]
    | none =>
      simp only [hupd] at h
      have hnone : findPlayer ht.players_by_id pid = none :=
        (updateFirstPlayer_eq_none _ _ _).mp hupd
      cases hat : s.away_team with
      | some at2 =>
        simp only [hat] at h
        cases hupd2 : updateFirstPlayer at2.players_by_id pid f with
        | some players2 =>
          simp only [hupd2] at h
          obtain rfl := (Except.ok.inj h).symm
          obtain ⟨p, h1, h2⟩ := updateFirstPlayer_find _ _ _ hf _ hupd2
          refine ⟨rfl, p, ?_, ?_⟩
          · simp only [GameState.get_player, hht, hat]
            simp [h1, hnone]
          · simp only [GameState.get_player, hht]
            simp [h2, hnone]
        | none =>
          simp only [hupd2] at h
          simp at h
      | none =>
        simp only [hat] at h
        simp at h
  | none =>
    simp only [hht] at h
    cases hat : s.away_team with
    | some at2 =>
      simp only [hat] at h
      cases hupd2 : updateFirstPlayer at2.players_by_id pid f with
      | some players2 =>
        simp only [hupd2] at h
        obtain rfl := (Except.ok.inj h).symm
        obtain ⟨p, h1, h2⟩ := updateFirstPlayer_find _ _ _ hf _ hupd2
        refine ⟨rfl, p, ?_, ?_⟩
        · simp only [GameState.get_player, hht, hat]
          simp [h1]
        · simp only [GameState.get_player, hht]
          simp [h2]
      | none =>
        simp only [hupd2] at h
        simp at h
    | none =>
      simp only [hat] at h
      simp at h

/-- `update_active_player` version of `update_player_get`. -/
theorem update_active_player_get (s : GameState) (f : Player → Player)
    (hf : ∀ p, (f p).player_id = p.player_id) (s2 : GameState)
    (h : s.update_active_player f = .ok s2) :
    s2.active_player_id = s.active_player_id ∧
    ∃ p, s.get_active_player = .ok p ∧ s2.get_active_player = .ok (f p) := by
  unfold GameState.update_active_player at h
  cases hap : s.active_player_id with
  | none =>
    simp only [hap] at h
    simp at h
  | some pid =>
    simp only [hap] at h
    obtain ⟨haid, p, h1, h2⟩ := update_player_get s pid f hf s2 h
    refine ⟨hap ▸ haid, p, ?_, ?_⟩
    · simp only [GameState.get_active_player, hap]
      exact h1
    · simp only [GameState.get_active_player, haid, hap]
      exact h2

/-- C3 (amended): whenever `gfi_rollout` succeeds it returns exactly two
outcomes with success probability 5/6 and failure probability 1/6
regardless of the weather (the source has no blizzard branch); the
failure outcome sets `procedure = Turnover` and `parent_procedure = None`
and moves the active player to `state.position` with `up = false`. -/
theorem gfi_rollout_success_failure_split (s : GameState)
    (outs : List RolloutOutcome) (h : gfi_rollout s = .ok outs) :
    outs.map RolloutOutcome.probability = [5/6, 1/6] ∧
    ((outs.map fun o => o.resulting_state.procedure).get? 1) =
      some (some Procedure.Turnover) ∧
    ((outs.map fun o => o.resulting_state.parent_procedure).get? 1) =
      some none ∧
    ((outs.map fun o => (o.resulting_state.get_active_player).map
        fun p => (p.position, p.state.up)).get? 1) =
      some (.ok (s.position, false)) := by
  unfold gfi_rollout at h
  cases hct : s.current_team_id with
  | none =>
    simp only [hct] at h
    simp at h
  | some ctid =>
    simp only [hct] at h
    cases hpos : s.position with
    | none =>
      simp only [hpos] at h
      simp at h
    | some pos =>
      simp only [hpos] at h
      by_cases htz : s.get_team_tackle_zones_at ctid pos > 0
      · simp only [if_pos htz] at h
        cases hupd : s.update_active_player (fun p =>
            { p with position := some pos,
                     state := { p.state with up := false } }) with
        | error e =>
          simp only [hupd] at h
          simp at h
        | ok fs =>
          simp only [hupd] at h
          obtain rfl := (Except.ok.inj h).symm
          obtain ⟨haid, p, h1, h2⟩ :=
            update_active_player_get s
              (fun p => { p with position := some pos,
                                 state := { p.state with up := false } })
              (fun _ => rfl) fs hupd
          refine ⟨rfl, rfl, rfl, ?_⟩
          have h3 :
              ({ fs with
                  procedure := some Procedure.Turnover,
                  parent_procedure := none } : GameState).get_active_player =
                fs.get_active_player := rfl
          simp only [RolloutOutcome.new, List.map_cons, List.map_nil, List.get?,
            h3, h2]
          rfl
      · simp only [if_neg htz] at h
        cases hepm : execute_player_movement s pos with
        | err e s2 =>
          simp only [hepm] at h
          simp at h
        | ok st =>
          simp only [hepm] at h
          cases hupd : s.update_active_player (fun p =>
              { p with position := some pos,
                       state := { p.state with up := false } }) with
          | error e =>
            simp only [hupd] at h
            simp at h
          | ok fs =>
            simp only [hupd] at h
            obtain rfl := (Except.ok.inj h).symm
            obtain ⟨haid, p, h1, h2⟩ :=
              update_active_player_get s
                (fun p => { p with position := some pos,
                                   state := { p.state with up := false } })
                (fun _ => rfl) fs hupd
            refine ⟨rfl, rfl, rfl, ?_⟩
            have h3 :
                ({ fs with
                    procedure := some Procedure.Turnover,
                    parent_procedure := none } : GameState).get_active_player =
                  fs.get_active_player := rfl
            simp only [RolloutOutcome.new, List.map_cons, List.map_nil,
              List.get?, h3, h2]
            rfl

/-- Witness for C3's theorem at the concrete GFI state `c3_state`. -/
theorem gfi_rollout_success_failure_split_witness :
    gfi_rollout c3_state = .ok c3_outs ∧
    (c3_outs.map RolloutOutcome.probability = [5/6, 1/6] ∧
      ((c3_outs.map fun o => o.resulting_state.procedure).get? 1) =
        some (some Procedure.Turnover) ∧
      ((c3_outs.map fun o => o.resulting_state.parent_procedure).get? 1) =
        some none ∧
      ((c3_outs.map fun o => (o.resulting_state.get_active_player).map
          fun p => (p.position, p.state.up)).get? 1) =
        some (.ok (c3_state.position, false))) :=
  ⟨rfl, gfi_rollout_success_failure_split c3_state c3_outs rfl⟩

/-- C3 counterexample: on a blizzard-weather GFI state the rollout still
returns probabilities 5/6 and 1/6, not the claimed 4/6 and 2/6. -/
theorem gfi_rollout_blizzard_cex :
    c3_state.weather = WeatherType.Blizzard ∧
    ((gfi_rollout c3_state).map fun outs =>
        outs.map RolloutOutcome.probability) = .ok [5/6, 1/6] ∧
    ((gfi_rollout c3_state).map fun outs =>
        outs.map RolloutOutcome.probability) ≠ .ok [4/6, 2/6] := by
  exact ⟨rfl, by decide, by decide⟩

/-- A square strictly inside the pitch border has all eight neighbours
inside the arena array, so `get_adjacent_squares` lists all of them. -/
theorem get_adjacent_squares_of_inbounds (p : Square)
    (h : p.is_out_of_bounds = false) :
    p.get_adjacent_squares = all_adjacent_squares p := by
  simp only [Square.is_out_of_bounds, ARENA_WIDTH, ARENA_HEIGHT,
    Bool.or_eq_false_iff, decide_eq_false_iff_not, not_le, ge_iff_le] at h
  simp only [Square.get_adjacent_squares, all_adjacent_squares,
    Square.directions, ARENA_WIDTH, ARENA_HEIGHT, List.filterMap_cons,
    List.filterMap_nil, List.map_cons, List.map_nil]
  rw [if_pos, if_pos, if_pos, if_pos, if_pos, if_pos, if_pos, if_pos]
  all_goals omega

/-- The classification pass of `push_discovery` appends, to each
accumulator, the candidate squares of the corresponding class in
traversal order. -/
theorem push_classify_foldl (gs : GameState) (ap dp : Square)
    (l : List Square) (e o c : List Square) :
    l.foldl (push_classify_step gs ap dp) (e, o, c) =
      (e ++ (l.filter (include_push_square ap dp)).filter
         (fun sq => !sq.is_out_of_bounds && !(gs.get_player_at sq).isOk),
       o ++ (l.filter (include_push_square ap dp)).filter
         (fun sq => sq.is_out_of_bounds),
       c ++ (l.filter (include_push_square ap dp)).filter
         (fun sq => !sq.is_out_of_bounds && (gs.get_player_at sq).isOk)) := by
  induction l generalizing e o c with
  | nil => simp
  | cons x xs ih =>
    simp only [List.foldl_cons, List.filter_cons]
    by_cases hinc : include_push_square ap dp x = true
    · by_cases hoob : x.is_out_of_bounds = true
      · simp [push_classify_step, hinc, hoob, ih, List.filter_cons]
      · by_cases hocc : (gs.get_player_at x).isOk = true
        · simp [push_classify_step, hinc, hoob, hocc, ih, List.filter_cons]
        · simp [push_classify_step, hinc, hoob, hocc, ih, List.filter_cons]
    · simp [push_classify_step, hinc, ih]

/-- **C8.** For every game state with a block context whose tail
push-chain attacker and defender both exist and stand on the pitch,
`push_discovery` succeeds and offers Push actions for exactly one class
of the candidate squares (the squares adjacent to the defender with
Chebyshev distance ≥ 2 from the attacker for a straight same-row-or-
column push, or Manhattan distance ≥ 3 for a diagonal push): the empty
ones if any, else the out-of-bounds ones if any, else the occupied
ones. -/
theorem push_discovery_single_class (gs : GameState)
    (ctx : BlockContext) (latest : PushChainItem)
    (attacker defender : Player) (apos dpos : Square)
    (hctx : gs.block_context = some ctx)
    (hlast : ctx.push_chain.getLast? = some latest)
    (hatt : gs.get_player latest.attacker = .ok attacker)
    (hapos : attacker.position = some apos)
    (hdef : gs.get_player latest.defender = .ok defender)
    (hdpos : defender.position = some dpos)
    (hdob : dpos.is_out_of_bounds = false) :
    push_discovery gs = .ok { gs with
      available_actions := (push_offered_class gs apos dpos).map fun sq =>
        Action.new ActionType.Push none (some sq) } := by
  have hatt0 : ({ gs with
      block_context := some ctx,
      available_actions := [] } : GameState).get_player
      latest.attacker = .ok attacker := hatt
  have hdef0 : ({ gs with
      block_context := some ctx,
      available_actions := [] } : GameState).get_player
      latest.defender = .ok defender := hdef
  simp only [push_discovery, hctx, hlast, hatt0, hapos, hdef0, hdpos,
    push_discovery_classes, get_adjacent_squares_of_inbounds dpos hdob,
    push_classify_foldl, List.nil_append]
  rfl

/-- Witness for C8's theorem at the scenario-4 Push discovery state
`c4_s4` (attacker at (8,6), defender at (7,7)): the offered class is
computed by `push_offered_class`. -/
theorem push_discovery_single_class_witness :
    c4_s4.block_context = some c8_ctx ∧
    push_discovery c4_s4 = ExecR.ok { c4_s4 with
      available_actions := (push_offered_class c4_s4 ⟨8, 6⟩ ⟨7, 7⟩).map fun sq =>
        Action.new ActionType.Push none (some sq) } :=
  ⟨rfl, push_discovery_single_class c4_s4 c8_ctx
    (PushChainItem.new "hp" "ap1" none)
    (mkPlayer "hp" (some ⟨8, 6⟩) 4 3) (mkPlayer "ap1" (some ⟨7, 7⟩) 4 3)
    ⟨8, 6⟩ ⟨7, 7⟩ rfl rfl rfl rfl rfl rfl rfl⟩

/-- Node well-formedness is stable under appending to the closed set
and weakening the bound. -/
theorem node_wf_extend (pf : Pathfinder) (closed ext : List PathNode)
    (b b' : Nat) (n : PathNode) (hb : b ≤ closed.length) (hb' : b ≤ b')
    (h : node_wf pf closed b n) : node_wf pf (closed ++ ext) b' n := by
  refine ⟨h.1, fun j hj => ?_⟩
  obtain ⟨hjb, hp⟩ := h.2 j hj
  refine ⟨lt_of_lt_of_le hjb hb', fun p hpget => ?_⟩
  exact hp p (by rwa [List.get?_append (lt_of_lt_of_le hjb hb)] at hpget)

/-- The element `popMax` pops, and every element it keeps, come from the
input list. -/
theorem popMax_mem (l : List PathNode) :
    ∀ m rest, popMax l = some (m, rest) → m ∈ l ∧ ∀ x ∈ rest, x ∈ l := by
  induction l with
  | nil => intro m rest h; simp [popMax] at h
  | cons n l ih =>
    intro m rest h
    cases hp : popMax l with
    | none =>
      simp only [popMax, hp] at h
      obtain ⟨rfl, rfl⟩ := h
      exact ⟨List.mem_cons_self n l, by simp⟩
    | some pr =>
      obtain ⟨m0, rest'⟩ := pr
      obtain ⟨hm0, hrest'⟩ := ih m0 rest' hp
      simp only [popMax, hp] at h
      by_cases hpri : PathNode.higher_priority m0 n = true
      · rw [if_pos hpri] at h
        obtain ⟨rfl, rfl⟩ := Prod.mk.inj (Option.some.inj h)
        refine ⟨List.mem_cons_of_mem n hm0, fun x hx => ?_⟩
        rcases List.mem_cons.mp hx with rfl | hx
        · exact List.mem_cons_self x l
        · exact List.mem_cons_of_mem n (hrest' x hx)
      · rw [if_neg hpri] at h
        obtain ⟨rfl, rfl⟩ := Prod.mk.inj (Option.some.inj h)
        exact ⟨List.mem_cons_self n l, fun x hx => List.mem_cons_of_mem n hx⟩

/-- Every valid neighbour lies strictly inside the pitch border and is
unoccupied. -/
theorem mem_get_valid_neighbors (pf : Pathfinder) (pos sq : Square)
    (h : sq ∈ pf.get_valid_neighbors pos) :
    inside_pitch_border sq ∧
      (pf.game_state.get_player_at sq).isOk = false := by
  simp only [Pathfinder.get_valid_neighbors, List.mem_filterMap] at h
  obtain ⟨d, _, hd⟩ := h
  split_ifs at hd with h1 h2
  injection hd with hd
  subst hd
  push_neg at h1
  constructor
  · unfold inside_pitch_border
    exact ⟨h1.1.1, h1.1.2, h1.2.1, h1.2.2⟩
  · cases hE : (pf.game_state.get_player_at
        (⟨pos.x + d.1, pos.y + d.2⟩ : Square)).isOk
    · rfl
    · exact absurd hE h2

/-- The probability `calculate_move_probability` returns is the amended
per-step success probability. -/
theorem calc_move_prob_fst (pf : Pathfinder) (n : PathNode) (dest : Square) :
    (pf.calculate_move_probability n dest).1 =
      step_success_prob pf n.position n.moves_left dest := by
  simp only [Pathfinder.calculate_move_probability, step_success_prob,
    gfi_factor]
  by_cases hml : n.moves_left = 0 <;>
    by_cases hdz : !pf.is_quick_snap ∧ pf.get_tackle_zones_at n.position > 0 <;>
      simp [hml, hdz]

/-- The GFI flag `calculate_move_probability` returns tests the source
node for exhausted normal movement. -/
theorem calc_move_prob_snd (pf : Pathfinder) (n : PathNode) (dest : Square) :
    (pf.calculate_move_probability n dest).2 = (n.moves_left == 0) := rfl

/-- Appending one square to a chain appends one step probability, taken
from the chain's last square and decremented movement. -/
theorem step_probs_concat (pf : Pathfinder) (xs : List Square) :
    ∀ (prev : Square) (ml : Nat) (sq : Square),
      step_probs pf prev ml (xs ++ [sq]) =
        step_probs pf prev ml xs ++
          [step_success_prob pf (xs.getLastD prev) (ml - xs.length) sq] := by
  induction xs with
  | nil => intro prev ml sq; simp [step_probs]
  | cons x xs ih =>
    intro prev ml sq
    simp only [List.cons_append, step_probs, List.append_eq, ih,
      List.getLastD_cons, List.length_cons, List.nil_append]
    rw [Nat.sub_sub, Nat.add_comm 1 xs.length]

/-- Every child generated by an expansion of `current` is well formed
over the closed set extended with `current`. -/
theorem astar_children_wf (pf : Pathfinder) (closed : List PathNode)
    (current : PathNode) (best : List (Square × PathNode)) :
    ∀ n ∈ astar_children pf closed.length current best,
      node_wf pf (closed ++ [current]) (closed ++ [current]).length n := by
  intro n hn
  simp only [astar_children, List.mem_filterMap] at hn
  obtain ⟨npos, hnb, hf⟩ := hn
  split_ifs at hf with hth hgfi hball hdom hdom
  · injection hf with hf
    subst hf
    constructor
    · intro h
      simp [PathNode.update_g_score, PathNode.from_parent] at h
    · intro j hj
      simp only [PathNode.update_g_score, PathNode.from_parent] at hj
      obtain rfl := Option.some.inj hj
      refine ⟨by simp, fun p hpget => ?_⟩
      rw [List.get?_concat_length] at hpget
      obtain rfl := Option.some.inj hpget
      refine ⟨?_, ?_, ?_⟩
      · simpa [PathNode.update_g_score, PathNode.from_parent] using hnb
      · simp only [PathNode.update_g_score, PathNode.from_parent]
        rw [calc_move_prob_fst]
      · simp only [PathNode.update_g_score, PathNode.from_parent,
          calc_move_prob_snd]
        by_cases h0 : current.moves_left = 0 <;> simp [h0]
  · injection hf with hf
    subst hf
    constructor
    · intro h
      simp [PathNode.update_g_score, PathNode.from_parent] at h
    · intro j hj
      simp only [PathNode.update_g_score, PathNode.from_parent] at hj
      obtain rfl := Option.some.inj hj
      refine ⟨by simp, fun p hpget => ?_⟩
      rw [List.get?_concat_length] at hpget
      obtain rfl := Option.some.inj hpget
      refine ⟨?_, ?_, ?_⟩
      · simpa [PathNode.update_g_score, PathNode.from_parent] using hnb
      · simp only [PathNode.update_g_score, PathNode.from_parent]
        rw [calc_move_prob_fst]
      · simp only [PathNode.update_g_score, PathNode.from_parent,
          calc_move_prob_snd]
        by_cases h0 : current.moves_left = 0 <;> simp [h0]

/-- One unfolding of the A* loop when the heap pops `current`. -/
theorem astar_loop_succ_some (pf : Pathfinder) (fuel : Nat)
    (st : SearchState) (current : PathNode) (rest : List PathNode)
    (h : popMax st.open_set = some (current, rest)) :
    pf.astar_loop (fuel + 1) st =
      if astar_skip st.best_nodes current then
        pf.astar_loop fuel { st with open_set := rest }
      else if current.total_moves_left = 0 then
        pf.astar_loop fuel
          { open_set := rest, closed_set := st.closed_set ++ [current],
            best_nodes := insertBest st.best_nodes current.position current }
      else
        pf.astar_loop fuel
          { open_set := rest ++ astar_children pf st.closed_set.length current
              (insertBest st.best_nodes current.position current),
            closed_set := st.closed_set ++ [current],
            best_nodes := insertBest st.best_nodes current.position current } := by
  rw [Pathfinder.astar_loop, h]

/-- The A* loop preserves the search invariants and returns a well-formed
closed set, for every fuel. -/
theorem astar_loop_closed_inv (pf : Pathfinder) :
    ∀ (fuel : Nat) (st : SearchState),
      closed_inv pf st.closed_set →
      open_inv pf st.closed_set st.open_set →
      closed_inv pf (pf.astar_loop fuel st) := by
  intro fuel
  induction fuel with
  | zero => intro st hc _; exact hc
  | succ fuel ih =>
    intro st hc ho
    cases hpop : popMax st.open_set with
    | none => rw [Pathfinder.astar_loop, hpop]; exact hc
    | some pr =>
      obtain ⟨current, rest⟩ := pr
      rw [astar_loop_succ_some pf fuel st current rest hpop]
      have hcur : node_wf pf st.closed_set st.closed_set.length current :=
        ho current (popMax_mem _ _ _ hpop).1
      have hrest : ∀ x ∈ rest, x ∈ st.open_set := (popMax_mem _ _ _ hpop).2
      have hc2 : closed_inv pf (st.closed_set ++ [current]) := by
        intro i n hget
        rcases Nat.lt_trichotomy i st.closed_set.length with hi | hi | hi
        · rw [List.get?_append hi] at hget
          exact node_wf_extend pf st.closed_set [current] i i n (le_of_lt hi)
            le_rfl (hc i n hget)
        · subst hi
          rw [List.get?_concat_length] at hget
          obtain rfl := Option.some.inj hget
          exact node_wf_extend pf st.closed_set [current] _ _ _ le_rfl le_rfl
            hcur
        · rw [List.get?_eq_none.mpr (by simpa using hi)] at hget
          exact absurd hget (by simp)
      have ho2 : open_inv pf (st.closed_set ++ [current]) rest := by
        intro x hx
        exact node_wf_extend pf st.closed_set [current] _ _ _ le_rfl
          (by simp) (ho x (hrest x hx))
      by_cases hskip : astar_skip st.best_nodes current = true
      · rw [if_pos hskip]
        exact ih _ hc (fun n hn => ho n (hrest n hn))
      · rw [if_neg hskip]
        by_cases html : current.total_moves_left = 0
        · rw [if_pos html]
          exact ih _ hc2 ho2
        · rw [if_neg html]
          refine ih _ hc2 ?_
          intro n hn
          rcases List.mem_append.mp hn with hn | hn
          · exact ho2 n hn
          · exact astar_children_wf pf st.closed_set current _ n hn

/-- Walking the parent links of a well-formed closed set reconstructs a
chain whose last square is the node's square, whose length accounts for
the node's remaining movement, whose step-probability product is the
node's probability, and whose squares are all on-pitch and unoccupied. -/
theorem reconstruct_chain_spec (pf : Pathfinder) (closed : List PathNode)
    (hinv : closed_inv pf closed)
    (hocc : (pf.game_state.get_player_at pf.current_position).isOk = true) :
    ∀ (fuel idx : Nat) (n : PathNode), idx < fuel →
      closed.get? idx = some n →
      (reconstruct_chain closed pf.current_position fuel idx).1.getLastD
          pf.current_position = n.position ∧
      n.moves_left = pf.initial_moves_left -
        (reconstruct_chain closed pf.current_position fuel idx).1.length ∧
      n.prob = (step_probs pf pf.current_position pf.initial_moves_left
        (reconstruct_chain closed pf.current_position fuel idx).1).prod ∧
      ∀ sq ∈ (reconstruct_chain closed pf.current_position fuel idx).1,
        inside_pitch_border sq ∧
          (pf.game_state.get_player_at sq).isOk = false := by
  intro fuel
  induction fuel with
  | zero => intro idx n h; exact absurd h (Nat.not_lt_zero idx)
  | succ fuel ih =>
    intro idx n hlt hget
    have hwf := hinv idx n hget
    cases hpar : n.parent with
    | none =>
      obtain ⟨hposr, hprob, hml⟩ := hwf.1 hpar
      simp only [reconstruct_chain, hget, hpar,
        if_neg (not_not_intro hposr)]
      refine ⟨hposr.symm, by simpa using hml, by simpa using hprob,
        by simp⟩
    | some j =>
      obtain ⟨hji, hlink⟩ := hwf.2 j hpar
      have hilen : idx < closed.length := (List.get?_eq_some.mp hget).1
      have hjlen : j < closed.length := lt_trans hji hilen
      obtain ⟨p, hpget⟩ : ∃ q, closed.get? j = some q :=
        ⟨closed.get ⟨j, hjlen⟩, List.get?_eq_get hjlen⟩
      obtain ⟨hnbr, hprob, hml⟩ := hlink p hpget
      obtain ⟨hin, hunocc⟩ := mem_get_valid_neighbors pf p.position n.position
        hnbr
      have hne : n.position ≠ pf.current_position := by
        intro he
        rw [he, hocc] at hunocc
        exact absurd hunocc (by simp)
      obtain ⟨ihlast, ihml, ihprob, ihmem⟩ := ih j p (by omega) hpget
      simp only [reconstruct_chain, hget, hpar, if_pos hne]
      refine ⟨List.getLastD_concat _ _ _, ?_, ?_, ?_⟩
      · simp only [List.length_append, List.length_cons, List.length_nil]
        omega
      · rw [step_probs_concat, List.prod_append, List.prod_singleton, ihlast,
          ← ihml, ← ihprob]
        exact hprob
      · intro sq hsq
        rcases List.mem_append.mp hsq with hsq | hsq
        · exact ihmem sq hsq
        · obtain rfl := List.mem_singleton.mp hsq
          exact ⟨hin, hunocc⟩

/-- Deduplication only drops paths. -/
theorem mem_dedup_by_target (p : Path) :
    ∀ (l : List Path) (seen : List Square),
      p ∈ dedup_by_target l seen → p ∈ l := by
  intro l
  induction l with
  | nil => intro seen h; simp [dedup_by_target] at h
  | cons q l ih =>
    intro seen h
    rw [dedup_by_target] at h
    by_cases hs : seen.contains q.target = true
    · rw [if_pos hs] at h
      exact List.mem_cons_of_mem q (ih _ h)
    · rw [if_neg hs] at h
      rcases List.mem_cons.mp h with rfl | h
      · exact List.mem_cons_self p l
      · exact List.mem_cons_of_mem q (ih _ h)

/-- Every path extracted from a well-formed closed set satisfies the
feasibility facts of claim C7. -/
theorem extract_paths_spec (pf : Pathfinder) (closed : List PathNode)
    (hinv : closed_inv pf closed)
    (hocc : (pf.game_state.get_player_at pf.current_position).isOk = true) :
    ∀ path ∈ pf.extract_paths closed,
      path.prob = (step_probs pf pf.current_position pf.initial_moves_left
        path.squares).prod ∧
      ∀ sq ∈ path.squares, inside_pitch_border sq ∧
        (pf.game_state.get_player_at sq).isOk = false := by
  intro path hp
  simp only [Pathfinder.extract_paths] at hp
  have hp2 := mem_dedup_by_target path _ _ hp
  rw [(List.perm_insertionSort _ _).mem_iff] at hp2
  simp only [List.mem_filterMap, List.mem_range] at hp2
  obtain ⟨idx, hidx, hf⟩ := hp2
  cases hg : closed.get? idx with
  | none =>
    simp only [hg] at hf
    simp at hf
  | some node =>
    simp only [hg] at hf
    by_cases hpos : node.position = pf.current_position
    · rw [if_pos hpos] at hf
      simp at hf
    · rw [if_neg hpos] at hf
      obtain rfl := Option.some.inj hf
      obtain ⟨hlast, hml, hprob, hmem⟩ :=
        reconstruct_chain_spec pf closed hinv hocc closed.length idx node
          hidx hg
      exact ⟨hprob, hmem⟩

/-- The concrete output of `find_all_paths` on the quick-snap witness
input `c7_pf`. -/
theorem c7_paths_eval : c7_pf.find_all_paths 10 = c7_path0 :: c7_paths_rest :=
  rfl

/-- **C7 (amended).** For every path returned by the pathfinder's
`find_all_paths`, `path.prob` equals exactly (the probabilities are
rationals in the embedding) the product of the per-step success
probabilities — the GFI factor when the step starts with no normal
movement left, times the dodge factor when the step leaves a square in
an opposing tackle zone except under a quick snap, which ignores tackle
zones — and every square in `path.squares` is strictly inside the pitch
border and unoccupied in the input state.  The hypothesis `hocc` states
that the moving player occupies the start square. -/
theorem find_all_paths_feasibility (pf : Pathfinder) (fuel : Nat)
    (path : Path)
    (hocc : (pf.game_state.get_player_at pf.current_position).isOk = true)
    (hmem : path ∈ pf.find_all_paths fuel) :
    path.prob = (step_probs pf pf.current_position pf.initial_moves_left
      path.squares).prod ∧
    ∀ sq ∈ path.squares, inside_pitch_border sq ∧
      (pf.game_state.get_player_at sq).isOk = false := by
  have hinv : closed_inv pf (pf.astar_loop fuel
      { open_set := [PathNode.new pf.current_position pf.initial_moves_left
          pf.initial_gfis_left], closed_set := [], best_nodes := [] }) := by
    apply astar_loop_closed_inv
    · intro i n h
      simp at h
    · intro n hn
      obtain rfl := List.mem_singleton.mp hn
      exact ⟨fun _ => ⟨rfl, rfl, rfl⟩,
        fun j hj => by simp [PathNode.new] at hj⟩
  exact extract_paths_spec pf _ hinv hocc path hmem

/-- Witness for C7's theorem at the quick-snap pathfinder `c7_pf`, fuel
10, on its first returned path `c7_path0`. -/
theorem find_all_paths_feasibility_witness :
    (c7_pf.game_state.get_player_at c7_pf.current_position).isOk = true ∧
    c7_path0 ∈ c7_pf.find_all_paths 10 ∧
    (c7_path0.prob = (step_probs c7_pf c7_pf.current_position
        c7_pf.initial_moves_left c7_path0.squares).prod ∧
      ∀ sq ∈ c7_path0.squares, inside_pitch_border sq ∧
        (c7_pf.game_state.get_player_at sq).isOk = false) :=
  ⟨rfl, by rw [c7_paths_eval]; exact List.mem_cons_self _ _,
    find_all_paths_feasibility c7_pf 10 c7_path0 rfl
      (by rw [c7_paths_eval]; exact List.mem_cons_self _ _)⟩

/-- C7 counterexample to the claim as stated: under a quick snap the
pathfinder applies no dodge factor.  On `c7_pf` the start square (5,5)
lies in one opposing tackle zone, yet the returned path to (4,4) has
probability 1, while the claimed per-step product (dodge factor applied
unconditionally when leaving a tackle zone) is 1/6. -/
theorem find_all_paths_quick_snap_cex :
    c7_pf.is_quick_snap = true ∧
    c7_pf.get_tackle_zones_at c7_pf.current_position = 1 ∧
    c7_path0 ∈ c7_pf.find_all_paths 10 ∧
    c7_path0.prob = 1 ∧
    (claimed_step_probs c7_pf c7_pf.current_position
        c7_pf.initial_moves_left c7_path0.squares).prod = 1 / 6 := by
  refine ⟨rfl, by decide, ?_, rfl, by decide⟩
  rw [c7_paths_eval]
  exact List.mem_cons_self _ _

end Yasa
